import Mathlib

/-!
Shallow embedding of `pkg/rtc/mediatrack.go` (the per-published-track control
plane of the SFU): the `MediaTrack` orchestrator, its `AddReceiver`,
close/teardown, mute and subscribed-quality handling.

Collaborators that live in this repository but outside the provided source
(`MediaTrackReceiver`, `DynacastManager`, `buffer.Buffer`) are modelled from
the specification; each such definition carries a doc comment starting with
`Modelled from the spec:`.  External libraries (pion rtcp, webrtc) are treated
as already-decoded inputs.
-/

namespace RtcModel

/-- Model of Go `strings.ToLower` (simple per-character lowering; stated over
the character list so the kernel can evaluate it). -/
def strToLower (s : String) : String := ⟨s.data.map Char.toLower⟩

/-- Case-insensitive string comparison: model of Go `strings.EqualFold`. -/
def equalFold (a b : String) : Bool := strToLower a == strToLower b

/-- One entry of `TrackInfo.Codecs` (`livekit.SimulcastCodec`): declared codec
of the track, in negotiation order. -/
structure SimulcastCodecInfo where
  mimeType : String
  cid : String := ""
deriving DecidableEq

/-- Track kind (`livekit.TrackType`). -/
inductive TrackKind where
  | audio
  | video
deriving DecidableEq

/-- The read-mostly track metadata (`livekit.TrackInfo`) consumed by the core:
kind and declared codec list. -/
structure TrackInfo where
  kind : TrackKind
  codecs : List SimulcastCodecInfo
deriving DecidableEq

/-- Model of `buffer.Buffer` as consumed here: the sender-report timing state
written by `SetSenderReportData` (other buffer internals are out of scope). -/
structure Buffer where
  senderReportData : Option (Nat × Nat) := none
deriving DecidableEq

/-- `buff.SetSenderReportData(pkt.RTPTime, pkt.NTPTime)`. -/
def Buffer.setSenderReportData (b : Buffer) (rtpTime ntpTime : Nat) : Buffer :=
  { b with senderReportData := some (rtpTime, ntpTime) }

/-- The RTCP reader half of the buffer pair; its only role in the source is to
accept the `OnPacket` wiring, so it carries no state here. -/
structure RtcpReader where
  dummy : Unit := ()
deriving DecidableEq

/-- A decoded RTCP packet as dispatched by the `rtcpReader.OnPacket` switch:
the source cases on `SourceDescription` and `SenderReport`; every other packet
type falls through the switch. -/
inductive RtcpPacket where
  | sourceDescription
  | senderReport (rtpTime ntpTime : Nat)
  | otherPacket
deriving DecidableEq

/-- The incoming `webrtc.TrackRemote`: SSRC, RID and codec mime type. -/
structure RemoteTrack where
  ssrc : Nat
  rid : String
  mimeType : String
deriving DecidableEq

/-- One simulcast-codec variant receiver (`sfu.WebRTCReceiver`) as visible to
this core: its mime, resolved priority, which callbacks were wired at
creation, the up-tracks attached to it, and the decode ceiling pushed down via
`SetMaxExpectedSpatialLayer`. -/
structure WebRTCReceiver where
  mime : String
  priority : Nat
  statsWired : Bool
  maxLayerWired : Bool
  upTracks : List (String × Nat) := []
  maxExpectedSpatialLayer : Option Int := none
deriving DecidableEq

/-- `types.SubscribedCodecQuality`: per-codec maximum subscribed quality. -/
structure SubscribedCodecQuality where
  codecMime : String
  quality : Nat
deriving DecidableEq

/-- Modelled from the spec: the Adaptive Quality Controller ("Dynacast")
owned by a video track.  The demand tables are summarised by the currently
computed per-codec maximum set (`curMaxQualities`); `closeCount` counts how
many times the teardown body actually executed, which the spec requires to be
gated ("must not double-release owned collaborators"). -/
structure DynacastManager where
  codecs : List String := []
  curMaxQualities : List SubscribedCodecQuality := []
  isClosed : Bool := false
  closeCount : Nat := 0
deriving DecidableEq

/-- Modelled from the spec: `DynacastManager.AddCodec` registers a codec as
eligible for demand tracking; idempotent. -/
def DynacastManager.addCodec (d : DynacastManager) (mime : String) : DynacastManager :=
  if d.codecs.contains mime then d else { d with codecs := d.codecs ++ [mime] }

/-- Modelled from the spec: `DynacastManager.Close` gates its teardown body
behind the closed flag so the controller is never double-released; the body
runs at most once. -/
def DynacastManager.close (d : DynacastManager) : DynacastManager :=
  if d.isClosed then d else { d with isClosed := true, closeCount := d.closeCount + 1 }

/-- Modelled from the spec: `DynacastManager.Restart` cancels the pending
debounce timer (not modelled) and recomputes demand from scratch; it does not
touch the closed state. -/
def DynacastManager.restart (d : DynacastManager) : DynacastManager := d

/-- Modelled from the spec: the Codec Receiver Registry state owned by
`MediaTrackReceiver` — codec-keyed receiver storage (at most one per mime,
case-insensitive), the learned (mime, RID) → SSRC layer map, and the
simulcast / mute / lifecycle flags. -/
structure MediaTrackReceiverState where
  trackInfo : TrackInfo
  receivers : List WebRTCReceiver := []
  layerSsrcs : List (String × String × Nat) := []
  isSimulcast : Bool := false
  isMuted : Bool := false
  isClosing : Bool := false
  isClosed : Bool := false
  potentialCodecs : List String := []
deriving DecidableEq

/-- Modelled from the spec: `MediaTrackReceiver.Receiver(mime)` — codec-keyed
lookup, case-insensitive. -/
def MediaTrackReceiverState.receiver (m : MediaTrackReceiverState) (mime : String) :
    Option WebRTCReceiver :=
  m.receivers.find? (fun r => equalFold r.mime mime)

/-- Modelled from the spec: the layer map resolves a (codec mime, RID) pair to
the SSRC it was first bound to. -/
def MediaTrackReceiverState.layerSsrc (m : MediaTrackReceiverState) (mime rid : String) :
    Option Nat :=
  (m.layerSsrcs.find? (fun e => e.1 == mime && e.2.1 == rid)).map (fun e => e.2.2)

/-- Modelled from the spec: `MediaTrackReceiver.SetLayerSsrc` — RID→SSRC
binding is learned incrementally and "a previously-unknown layer never
regresses an already-known mapping for the same RID within a session"
(first-binding-wins). -/
def MediaTrackReceiverState.setLayerSsrc (m : MediaTrackReceiverState)
    (mime rid : String) (ssrc : Nat) : MediaTrackReceiverState :=
  if (m.layerSsrc mime rid).isSome then m
  else { m with layerSsrcs := m.layerSsrcs ++ [(mime, rid, ssrc)] }

/-- Modelled from the spec: the registry tracks which codec is primary
(first negotiated); the primary is the present receiver with the least
priority. -/
def MediaTrackReceiverState.primaryReceiver (m : MediaTrackReceiverState) :
    Option WebRTCReceiver :=
  m.receivers.foldl
    (fun acc r =>
      match acc with
      | none => some r
      | some b => if r.priority < b.priority then some r else some b)
    none

/-- Modelled from the spec: `MediaTrackReceiver.SetClosing` marks the closing
flag that gates teardown. -/
def MediaTrackReceiverState.setClosing (m : MediaTrackReceiverState) : MediaTrackReceiverState :=
  { m with isClosing := true }

/-- Modelled from the spec: `MediaTrackReceiver.ClearReceiver(mime, ...)`
removes the Codec Receiver registered for that mime. -/
def MediaTrackReceiverState.clearReceiver (m : MediaTrackReceiverState) (mime : String)
    (_willBeResumed : Bool) : MediaTrackReceiverState :=
  { m with receivers := m.receivers.filter (fun r => !(equalFold r.mime mime)) }

/-- Modelled from the spec: `MediaTrackReceiver.ClearAllReceivers` closes and
removes every Codec Receiver. -/
def MediaTrackReceiverState.clearAllReceivers (m : MediaTrackReceiverState)
    (_willBeResumed : Bool) : MediaTrackReceiverState :=
  { m with receivers := [] }

/-- Modelled from the spec: `MediaTrackReceiver.Close` releases the track,
recorded by the closed flag; idempotent. -/
def MediaTrackReceiverState.closeReceiver (m : MediaTrackReceiverState) : MediaTrackReceiverState :=
  { m with isClosed := true }

/-- Modelled from the spec: `MediaTrackReceiver.TryClose` performs the full
release only if no receivers remain ("removal of the primary receiver — if no
receivers remain — triggers full Track teardown"); reports whether it did. -/
def MediaTrackReceiverState.tryClose (m : MediaTrackReceiverState) :
    MediaTrackReceiverState × Bool :=
  if m.receivers.isEmpty then (m.closeReceiver, true) else (m, false)

/-- `SimulcastTrackInfo` entry of `params.SimTracks` (keyed by SSRC). -/
structure SimulcastTrackInfo where
  mid : String
  rid : String
deriving DecidableEq

/-- The `MediaTrack` orchestrator state: the embedded `MediaTrackReceiver`
registry, the optional Dynacast controller (video only), the atomic up-track
counter, the buffer captured for the primary path, and the `SimTracks`
configuration from `params`. -/
structure MediaTrack where
  mtr : MediaTrackReceiverState
  dynacast : Option DynacastManager
  numUpTracks : Nat := 0
  buffer : Option Buffer := none
  simTracks : List (Nat × SimulcastTrackInfo) := []
  qualityHandlerRegistered : Bool := false
deriving DecidableEq

/-- `NewMediaTrack`: a video track owns a Dynacast controller, an audio track
does not (the audio-only loss proxy is out of the claims' scope). -/
def newMediaTrack (ti : TrackInfo) (simTracks : List (Nat × SimulcastTrackInfo)) : MediaTrack :=
  { mtr := { trackInfo := ti }
    dynacast := if ti.kind = TrackKind.video then some {} else none
    simTracks := simTracks }

/-- Log/side-channel events emitted by the embedded operations (logging is a
sink in the source; reified here so failure paths stay observable without
polluting the track state). -/
inductive LogEvent where
  | errorNoBufferPair
  | errorRtcpUnmarshal
  | warnNoCodecPriority (mime : String)
deriving DecidableEq

/-- First case-insensitive match of `mime` in the declared codec list,
together with its index: the `for idx, c := range ti.Codecs` loop of
`AddReceiver` (`break` on the first hit). -/
def findCodecIndex (mime : String) : List SimulcastCodecInfo → Option Nat
  | [] => none
  | c :: rest =>
    if equalFold mime c.mimeType then some 0
    else (findCodecIndex mime rest).map (fun n => n + 1)

/-- Codec priority resolution of `AddReceiver` (src lines 223-246): index of
the matching declared codec, else the positional fallbacks — no declared
codecs (audio track) or exactly one declared codec with an empty mime (older
client) resolve to 0; anything else fails. -/
def resolveCodecPriority (mime : String) (codecs : List SimulcastCodecInfo) : Option Nat :=
  match findCodecIndex mime codecs with
  | some idx => some idx
  | none =>
    match codecs with
    | [] => some 0
    | [c] => if c.mimeType = "" then some 0 else none
    | _ => none

/-- `wr.AddUpTrack(track, buff)`: append the (RID, SSRC) up-track to the
receiver registered for `mime` (first case-insensitive match). -/
def addUpTrackTo : List WebRTCReceiver → String → (String × Nat) → List WebRTCReceiver
  | [], _, _ => []
  | r :: rest, mime, ut =>
    if equalFold r.mime mime then { r with upTracks := r.upTracks ++ [ut] } :: rest
    else r :: addUpTrackTo rest mime ut

/-- The `for ssrc, info := range t.params.SimTracks` loop of `AddReceiver`
(src lines 302-306): every configured simulcast track whose MID matches is
bound into the layer map. -/
def bindSimTracksForMid (t : MediaTrack) (mime mid : String) : MediaTrack :=
  t.simTracks.foldl
    (fun acc p =>
      if p.2.mid == mid then { acc with mtr := acc.mtr.setLayerSsrc mime p.2.rid p.1 } else acc)
    t

/-- Result of `MediaTrack.AddReceiver`: the updated track, the `newCodec`
return value, and the reified log events. -/
structure AddReceiverResult where
  track : MediaTrack
  newCodec : Bool
  logs : List LogEvent
deriving DecidableEq

/-- `if t.numUpTracks.Inc() > 1 || track.RID() != "" { t.SetSimulcast(true) }`
(src lines 315-318), applied after the counter has been incremented: the
simulcast flag is only ever latched to true. -/
def latchSimulcast (t : MediaTrack) (rid : String) : MediaTrack :=
  if t.numUpTracks > 1 ∨ rid ≠ "" then { t with mtr := { t.mtr with isSimulcast := true } } else t

/-- `if t.IsSimulcast() { t.SetLayerSsrc(mime, track.RID(), track.SSRC()) }`
(src lines 320-322). -/
def bindLayerIfSimulcast (t : MediaTrack) (mime : String) (track : RemoteTrack) : MediaTrack :=
  if t.mtr.isSimulcast then { t with mtr := t.mtr.setLayerSsrc mime track.rid track.ssrc }
  else t

/-- Common tail of `AddReceiver` (src lines 312-341), executed for both new
and existing codecs after the registry decision: attach the up-track,
increment the atomic up-track counter, latch the simulcast flag once the
counter exceeds one or the RID is non-empty, and — only while simulcast —
bind the (mime, RID) → SSRC layer mapping.  The `buff.Bind` /
`OnFpsChanged` / `OnFinalRtpStats` wiring touches only the external buffer
object, not track state. -/
def addReceiverTail (t : MediaTrack) (mime : String) (track : RemoteTrack)
    (newCodec : Bool) : AddReceiverResult :=
  let t1 : MediaTrack :=
    { t with mtr := { t.mtr with receivers := addUpTrackTo t.mtr.receivers mime (track.rid, track.ssrc) } }
  let t2 : MediaTrack := { t1 with numUpTracks := t1.numUpTracks + 1 }
  { track := bindLayerIfSimulcast (latchSimulcast t2 track.rid) mime track
    newCodec := newCodec
    logs := [] }

/-- The newly constructed `sfu.NewWebRTCReceiver` (src lines 248-259) with its
creation-time wiring: `OnStatsUpdate` / `OnMaxLayerChange` are attached only
for `priority == 0` (the SIMULCAST-CODEC-TODO limitation, src lines 270-278). -/
def mkWebRTCReceiver (mime : String) (priority : Nat) : WebRTCReceiver :=
  { mime := mime
    priority := priority
    statsWired := priority == 0
    maxLayerWired := priority == 0 }

/-- The intersection of the declared codecs with the transport's negotiated
codec parameters (src lines 281-290). -/
def computePotentialCodecs (negotiatedCodecMimes : List String)
    (codecs : List SimulcastCodecInfo) : List String :=
  codecs.foldl
    (fun acc c =>
      match negotiatedCodecMimes.find? (fun nc => equalFold nc c.mimeType) with
      | some nc => acc ++ [nc]
      | none => acc)
    []

/-- `if t.PrimaryReceiver() == nil { ... SetPotentialCodecs ... }` (src lines
279-296): on the very first receiver, record the potential future codecs. -/
def capturePotentialCodecs (t : MediaTrack) (negotiatedCodecMimes : List String) : MediaTrack :=
  if t.mtr.primaryReceiver.isNone then
    if (computePotentialCodecs negotiatedCodecMimes t.mtr.trackInfo.codecs).isEmpty then t
    else
      { t with mtr :=
          { t.mtr with potentialCodecs := computePotentialCodecs negotiatedCodecMimes t.mtr.trackInfo.codecs } }
  else t

/-- The new-codec branch of `AddReceiver` before the common tail (src lines
248-306): construct the receiver with its wiring, capture potential codecs if
this is the very first receiver, store the buffer, register the receiver
(which fires the `OnSetupReceiver` callback into `DynacastManager.AddCodec`),
and bind the configured `SimTracks` layers for this MID. -/
def createCodecReceiver (t : MediaTrack) (mime : String)
    (negotiatedCodecMimes : List String) (mid : String) (buff : Buffer)
    (priority : Nat) : MediaTrack :=
  let tA : MediaTrack := capturePotentialCodecs t negotiatedCodecMimes
  let tB : MediaTrack := { tA with buffer := some buff }
  let tC : MediaTrack :=
    { tB with mtr := { tB.mtr with receivers := tB.mtr.receivers ++ [mkWebRTCReceiver mime priority] } }
  let tD : MediaTrack := { tC with dynacast := tC.dynacast.map (fun d => d.addCodec mime) }
  bindSimTracksForMid tD mime mid

/-- `MediaTrack.AddReceiver` (src lines 185-342).  The buffer pair returned by
`params.BufferFactory.GetBufferPair(ssrc)` is passed in as the two `Option`s;
`negotiatedCodecMimes` stands for `receiver.GetParameters().Codecs`.  The
`rtcpReader.OnPacket` closure is embedded separately as `rtcpOnPacket`. -/
def MediaTrack.addReceiver (t : MediaTrack) (track : RemoteTrack)
    (negotiatedCodecMimes : List String) (mid : String)
    (buffOpt : Option Buffer) (rtcpReaderOpt : Option RtcpReader) : AddReceiverResult :=
  match buffOpt, rtcpReaderOpt with
  | some buff, some _rtcpReader =>
    let mime := strToLower track.mimeType
    match t.mtr.receiver mime with
    | some _wr => addReceiverTail t mime track false
    | none =>
      match resolveCodecPriority mime t.mtr.trackInfo.codecs with
      | none => { track := t, newCodec := false, logs := [LogEvent.warnNoCodecPriority mime] }
      | some priority =>
        addReceiverTail (createCodecReceiver t mime negotiatedCodecMimes mid buff priority)
          mime track true
  | _, _ => { track := t, newCodec := false, logs := [LogEvent.errorNoBufferPair] }

/-- Observable emissions of the quality-change path: an invocation of the
externally registered handler `f`, a forced recomputation emitted by the
Dynacast controller, and the application of a mute state. -/
inductive Emit where
  | externalQualityHandler (maxQ : List SubscribedCodecQuality)
  | forcedRecompute (maxQ : List SubscribedCodecQuality)
  | muteApplied (muted : Bool)
deriving DecidableEq

/-- `receiver.SetMaxExpectedSpatialLayer` applied to the receiver registered
for `mime` (first case-insensitive match), as in the handler loop. -/
def setMaxLayerForMime : List WebRTCReceiver → String → Int → List WebRTCReceiver
  | [], _, _ => []
  | r :: rest, mime, l =>
    if equalFold r.mime mime then { r with maxExpectedSpatialLayer := some l } :: rest
    else r :: setMaxLayerForMime rest mime l

/-- The handler closure registered with the Dynacast controller in
`OnSubscribedMaxQualityChange` (src lines 136-147): invoke the external `f`
only when registered and the track is not muted, then — unconditionally —
push each reported codec's new maximum down to its receiver as a spatial
layer via the quality-to-layer derivation `q2l`
(`buffer.VideoQualityToSpatialLayer` over this track's layer configuration,
kept abstract). -/
def MediaTrack.subscribedMaxQualityHandler (q2l : Nat → Int) (t : MediaTrack)
    (_subscribedQualities : List String)
    (maxSubscribedQualities : List SubscribedCodecQuality) : MediaTrack × List Emit :=
  let emits : List Emit :=
    if t.qualityHandlerRegistered && !t.mtr.isMuted then
      [Emit.externalQualityHandler maxSubscribedQualities]
    else []
  let receivers :=
    maxSubscribedQualities.foldl
      (fun rs q => setMaxLayerForMime rs q.codecMime (q2l q.quality))
      t.mtr.receivers
  ({ t with mtr := { t.mtr with receivers := receivers } }, emits)

/-- Modelled from the spec: `DynacastManager.ForceUpdate` immediately
recomputes and emits the current per-codec maximum demand through the
registered handler; after teardown no stale emission may occur. -/
def MediaTrack.forceUpdate (q2l : Nat → Int) (t : MediaTrack) : MediaTrack × List Emit :=
  match t.dynacast with
  | none => (t, [])
  | some d =>
    if d.isClosed then (t, [])
    else
      let res := t.subscribedMaxQualityHandler q2l [] d.curMaxQualities
      (res.1, Emit.forcedRecompute d.curMaxQualities :: res.2)

/-- `MediaTrack.SetMuted` (src lines 382-391): on unmute force the Dynacast
controller to recompute and emit current demand, then apply the mute state
to the receiver. -/
def MediaTrack.setMuted (q2l : Nat → Int) (t : MediaTrack) (muted : Bool) :
    MediaTrack × List Emit :=
  let step : MediaTrack × List Emit :=
    if !muted && t.dynacast.isSome then t.forceUpdate q2l else (t, [])
  ({ step.1 with mtr := { step.1.mtr with isMuted := muted } },
   step.2 ++ [Emit.muteApplied muted])

/-- `MediaTrack.Close` (src lines 373-380): mark closing, close the Dynacast
controller if present, clear every receiver, release the track. -/
def MediaTrack.close (t : MediaTrack) (willBeResumed : Bool) : MediaTrack :=
  let t1 : MediaTrack := { t with mtr := t.mtr.setClosing }
  let t2 : MediaTrack := { t1 with dynacast := t1.dynacast.map DynacastManager.close }
  let t3 : MediaTrack := { t2 with mtr := t2.mtr.clearAllReceivers willBeResumed }
  { t3 with mtr := t3.mtr.closeReceiver }

/-- The `OnCloseHandler` closure attached to every new receiver (src lines
261-269): receiver-initiated close — mark closing, drop this receiver, and if
no receivers remain close the Dynacast controller. -/
def MediaTrack.receiverCloseHandler (t : MediaTrack) (mime : String) : MediaTrack :=
  let t1 : MediaTrack := { t with mtr := t.mtr.setClosing }
  let t2 : MediaTrack := { t1 with mtr := t1.mtr.clearReceiver mime false }
  let tc := t2.mtr.tryClose
  let t3 : MediaTrack := { t2 with mtr := tc.1 }
  if tc.2 then { t3 with dynacast := t3.dynacast.map DynacastManager.close } else t3

/-- `pkts.foldl` body of the `rtcpReader.OnPacket` closure (src lines
200-207): sender reports update the buffer's sender-report timing state,
source descriptions do nothing, every other packet type falls through. -/
def processRtcpOnBuffer (b : Buffer) : List RtcpPacket → Buffer
  | [] => b
  | p :: rest =>
    let b1 :=
      match p with
      | RtcpPacket.sourceDescription => b
      | RtcpPacket.senderReport rtpTime ntpTime => b.setSenderReportData rtpTime ntpTime
      | RtcpPacket.otherPacket => b
    processRtcpOnBuffer b1 rest

/-- The `rtcpReader.OnPacket` closure (src lines 193-208), taking the result
of `rtcp.Unmarshal` (an external library) as an already-decoded input: an
unmarshal failure is logged and dropped; otherwise the decoded packets are
dispatched onto the captured buffer. -/
def MediaTrack.rtcpOnPacket (t : MediaTrack) (decoded : Except String (List RtcpPacket)) :
    MediaTrack × List LogEvent :=
  match decoded with
  | Except.error _ => (t, [LogEvent.errorRtcpUnmarshal])
  | Except.ok pkts => ({ t with buffer := t.buffer.map (fun b => processRtcpOnBuffer b pkts) }, [])

/-- `MediaTrack.Restart` (src lines 365-371): restart the receiver and the
Dynacast controller. -/
def MediaTrack.restartTrack (t : MediaTrack) : MediaTrack :=
  { t with dynacast := t.dynacast.map DynacastManager.restart }

/-- The state-mutating operations of the Track modelled here, so that
lifetime properties (simulcast latch, at-most-once teardown) can be stated
over arbitrary interleavings. -/
inductive TrackOp where
  | addReceiver (track : RemoteTrack) (negotiated : List String) (mid : String)
      (buffOpt : Option Buffer) (rtcpReaderOpt : Option RtcpReader)
  | closeTrack (willBeResumed : Bool)
  | receiverClosed (mime : String)
  | setMuted (q2l : Nat → Int) (muted : Bool)
  | maxQualityChange (q2l : Nat → Int) (subQ : List String) (maxQ : List SubscribedCodecQuality)
  | restart
  | rtcpPacket (decoded : Except String (List RtcpPacket))

/-- Apply one operation to the track state. -/
def MediaTrack.applyOp (t : MediaTrack) : TrackOp → MediaTrack
  | TrackOp.addReceiver rt neg mid bo ro => (t.addReceiver rt neg mid bo ro).track
  | TrackOp.closeTrack w => t.close w
  | TrackOp.receiverClosed mime => t.receiverCloseHandler mime
  | TrackOp.setMuted q2l m => (MediaTrack.setMuted q2l t m).1
  | TrackOp.maxQualityChange q2l s mq => (MediaTrack.subscribedMaxQualityHandler q2l t s mq).1
  | TrackOp.restart => t.restartTrack
  | TrackOp.rtcpPacket d => (t.rtcpOnPacket d).1

/-- Run a sequence of operations. -/
def runOps (t : MediaTrack) (ops : List TrackOp) : MediaTrack :=
  ops.foldl MediaTrack.applyOp t

/-- Number of times the Dynacast controller's teardown body has executed. -/
def MediaTrack.dynCloseCount (t : MediaTrack) : Nat :=
  match t.dynacast with
  | none => 0
  | some d => d.closeCount

/-- The Dynacast close-counting invariant: the teardown body has run exactly
once iff the controller is closed. -/
def MediaTrack.dynInv (t : MediaTrack) : Prop :=
  match t.dynacast with
  | none => True
  | some d => d.closeCount = (if d.isClosed then 1 else 0)

/-- Forget the layer map: used to state that an operation touches nothing but
the layer map. -/
def eraseLayerSsrcs (t : MediaTrack) : MediaTrack :=
  { t with mtr := { t.mtr with layerSsrcs := [] } }

/-- The creation-time attributes of a receiver (everything except the mutable
up-track list): used to state that later calls never change the wiring of an
already-registered receiver. -/
def wiringView (r : WebRTCReceiver) : String × Nat × Bool × Bool × Option Int :=
  (r.mime, r.priority, r.statsWired, r.maxLayerWired, r.maxExpectedSpatialLayer)

/-- Forget the recorded potential codecs: used to state that capturing them
touches nothing else. -/
def erasePotentialCodecs (t : MediaTrack) : MediaTrack :=
  { t with mtr := { t.mtr with potentialCodecs := [] } }

/-- The (lowercased) codec keys of the registry. -/
def mimeKeys (rs : List WebRTCReceiver) : List String :=
  rs.map (fun r => strToLower r.mime)

/-- At most one receiver per case-insensitive mime class. -/
def receiversUniquePerMime (rs : List WebRTCReceiver) : Prop :=
  (mimeKeys rs).Pairwise (fun a b => a ≠ b)

/-- Number of forced-recompute emissions in an event trace. -/
def countForcedEmits (es : List Emit) : Nat :=
  es.countP (fun e =>
    match e with
    | Emit.forcedRecompute _ => true
    | _ => false)

/-- A fresh single-codec video track with no configured SimTracks. -/
def trackC7 : MediaTrack :=
  newMediaTrack { kind := TrackKind.video, codecs := [{ mimeType := "video/vp8" }] } []

/-- The non-simulcast first encoding arriving on `trackC7` (empty RID). -/
def rtC7 : RemoteTrack := { ssrc := 1001, rid := "", mimeType := "video/vp8" }

/-- The first (non-simulcast: empty RID) `AddReceiver` call on `trackC7`. -/
def resC7 : AddReceiverResult :=
  trackC7.addReceiver rtC7 ["video/vp8"] "0" (some {}) (some {})

/-- A fresh video track declaring vp8 (priority 0) then h264 (priority 1). -/
def trackC8 : MediaTrack :=
  newMediaTrack
    { kind := TrackKind.video
      codecs := [{ mimeType := "video/vp8" }, { mimeType := "video/h264" }] } []

/-- The h264 encoding arriving on `trackC8` (declared at index 1). -/
def rtC8a : RemoteTrack := { ssrc := 1, rid := "", mimeType := "video/h264" }

/-- First arrival on `trackC8`: the h264 encoding (declared at index 1). -/
def resC8a : AddReceiverResult :=
  trackC8.addReceiver rtC8a [] "0" (some {}) (some {})

/-- Second arrival on `trackC8`: the vp8 encoding (declared at index 0). -/
def resC8b : AddReceiverResult :=
  resC8a.track.addReceiver { ssrc := 2, rid := "", mimeType := "video/vp8" } [] "0"
    (some {}) (some {})

/-! ### Concrete fixtures for the witnesses -/

/-- A fresh single-codec video track. -/
def t0W : MediaTrack :=
  newMediaTrack { kind := TrackKind.video, codecs := [{ mimeType := "video/vp8" }] } []

/-- A vp8 simulcast encoding (RID "f"). -/
def rtW : RemoteTrack := { ssrc := 1001, rid := "f", mimeType := "video/vp8" }

/-- The first call on `t0W`. -/
def res1W : AddReceiverResult := t0W.addReceiver rtW ["video/vp8"] "0" (some {}) (some {})

/-- The track after the first call. -/
def t1W : MediaTrack := res1W.track

/-- The vp8 receiver registered on `t1W` by the first call. -/
def wr1W : WebRTCReceiver :=
  { mime := "video/vp8", priority := 0, statsWired := true, maxLayerWired := true
    upTracks := [("f", 1001)], maxExpectedSpatialLayer := none }

/-- A second vp8 layer, announced with a differently-cased mime. -/
def rtW2 : RemoteTrack := { ssrc := 1002, rid := "h", mimeType := "Video/VP8" }

/-- A later announcement of the already-bound RID "f" with a conflicting
SSRC, for the first-binding-wins check. -/
def rt3W : RemoteTrack := { ssrc := 9999, rid := "f", mimeType := "video/vp8" }

/-- An undeclared codec arriving on `trackC8`. -/
def rtAv1W : RemoteTrack := { ssrc := 3, rid := "", mimeType := "video/AV1" }

/-- The identity quality-to-layer derivation used in witnesses. -/
def q2lW : Nat → Int := fun q => (q : Int)

/-- `t0W` muted. -/
def tMutW : MediaTrack := (MediaTrack.setMuted q2lW t0W true).1

/-- `t1W` muted. -/
def t1MutW : MediaTrack := (MediaTrack.setMuted q2lW t1W true).1

/-! ### Generic helpers -/

theorem foldl_invariant {α β : Type _} (P : β → Prop) (f : β → α → β)
    (hf : ∀ b a, P b → P (f b a)) : ∀ (l : List α) (b : β), P b → P (l.foldl f b)
  | [], _, hb => hb
  | a :: l, b, hb => foldl_invariant P f hf l (f b a) (hf b a hb)

theorem find?_append_some {α : Type _} {l₁ : List α} (l₂ : List α) {p : α → Bool} {v : α}
    (h : l₁.find? p = some v) : (l₁ ++ l₂).find? p = some v := by
  rw [List.find?_append, h]; rfl

theorem find?_append_of_none {α : Type _} {l₁ : List α} (l₂ : List α) {p : α → Bool}
    (h : l₁.find? p = none) : (l₁ ++ l₂).find? p = l₂.find? p := by
  rw [List.find?_append, h]; rfl

theorem equalFold_refl (a : String) : equalFold a a = true := by
  simp [equalFold]

theorem equalFold_eq_true_iff {a b : String} :
    equalFold a b = true ↔ strToLower a = strToLower b := by
  simp [equalFold]

theorem equalFold_eq_false_iff {a b : String} :
    equalFold a b = false ↔ strToLower a ≠ strToLower b := by
  simp [equalFold]

/-! ### Layer-map helpers -/

theorem eraseLayer_setLayerSsrc (b : MediaTrack) (mi ri : String) (s : Nat) :
    eraseLayerSsrcs { b with mtr := b.mtr.setLayerSsrc mi ri s } = eraseLayerSsrcs b := by
  unfold eraseLayerSsrcs MediaTrackReceiverState.setLayerSsrc
  split <;> rfl

theorem bindSimTracksForMid_eraseLayer (t : MediaTrack) (mime mid : String) :
    eraseLayerSsrcs (bindSimTracksForMid t mime mid) = eraseLayerSsrcs t := by
  refine foldl_invariant (fun s => eraseLayerSsrcs s = eraseLayerSsrcs t) _ ?_ t.simTracks t rfl
  intro b a hb
  by_cases h : (a.2.mid == mid) = true
  · simpa [h, eraseLayer_setLayerSsrc] using hb
  · simpa [h] using hb

theorem bindSimTracksForMid_receivers (t : MediaTrack) (mime mid : String) :
    (bindSimTracksForMid t mime mid).mtr.receivers = t.mtr.receivers :=
  congrArg (fun s => s.mtr.receivers) (bindSimTracksForMid_eraseLayer t mime mid)

theorem bindSimTracksForMid_isSimulcast (t : MediaTrack) (mime mid : String) :
    (bindSimTracksForMid t mime mid).mtr.isSimulcast = t.mtr.isSimulcast :=
  congrArg (fun s => s.mtr.isSimulcast) (bindSimTracksForMid_eraseLayer t mime mid)

theorem bindSimTracksForMid_numUpTracks (t : MediaTrack) (mime mid : String) :
    (bindSimTracksForMid t mime mid).numUpTracks = t.numUpTracks :=
  congrArg (fun s => s.numUpTracks) (bindSimTracksForMid_eraseLayer t mime mid)

theorem bindSimTracksForMid_dynacast (t : MediaTrack) (mime mid : String) :
    (bindSimTracksForMid t mime mid).dynacast = t.dynacast :=
  congrArg (fun s => s.dynacast) (bindSimTracksForMid_eraseLayer t mime mid)

theorem bindSimTracksForMid_isMuted (t : MediaTrack) (mime mid : String) :
    (bindSimTracksForMid t mime mid).mtr.isMuted = t.mtr.isMuted :=
  congrArg (fun s => s.mtr.isMuted) (bindSimTracksForMid_eraseLayer t mime mid)

theorem layerSsrc_setLayerSsrc_mono (m : MediaTrackReceiverState) (mi ri : String) (v : Nat)
    (a b : String) (c : Nat) (h : m.layerSsrc mi ri = some v) :
    (m.setLayerSsrc a b c).layerSsrc mi ri = some v := by
  unfold MediaTrackReceiverState.setLayerSsrc
  split
  · exact h
  · unfold MediaTrackReceiverState.layerSsrc at h ⊢
    obtain ⟨e, he, hv⟩ := Option.map_eq_some'.mp h
    rw [find?_append_some _ he]
    simpa using hv

theorem layerSsrc_setLayerSsrc_self (m : MediaTrackReceiverState) (mi ri : String) (s : Nat) :
    (m.setLayerSsrc mi ri s).layerSsrc mi ri = some ((m.layerSsrc mi ri).getD s) := by
  cases h : m.layerSsrc mi ri with
  | some v =>
    simpa using layerSsrc_setLayerSsrc_mono m mi ri v mi ri s h
  | none =>
    unfold MediaTrackReceiverState.setLayerSsrc
    rw [h]
    simp only [Option.isSome_none, Bool.false_eq_true, if_false, Option.getD_none]
    unfold MediaTrackReceiverState.layerSsrc at h ⊢
    rw [find?_append_of_none _ (Option.map_eq_none'.mp h)]
    simp [List.find?]

theorem bindSimTracksForMid_layer_mono (t : MediaTrack) (mime mid : String)
    (mi ri : String) (v : Nat) (h : t.mtr.layerSsrc mi ri = some v) :
    (bindSimTracksForMid t mime mid).mtr.layerSsrc mi ri = some v := by
  refine foldl_invariant (fun s => s.mtr.layerSsrc mi ri = some v) _ ?_ t.simTracks t h
  intro b a hb
  by_cases hc : (a.2.mid == mid) = true
  · simpa [hc] using layerSsrc_setLayerSsrc_mono b.mtr mi ri v _ _ _ hb
  · simpa [hc] using hb

/-! ### Receiver-list helpers -/

theorem addUpTrackTo_map_mime (rs : List WebRTCReceiver) (m : String) (ut : String × Nat) :
    (addUpTrackTo rs m ut).map (fun r => r.mime) = rs.map (fun r => r.mime) := by
  induction rs with
  | nil => rfl
  | cons r rest ih =>
    unfold addUpTrackTo
    split <;> simp [ih]

theorem find?_mime_cons_pos (r : WebRTCReceiver) (rest : List WebRTCReceiver) (m' : String)
    (h : equalFold r.mime m' = true) :
    (r :: rest).find? (fun x => equalFold x.mime m') = some r := by
  simp [List.find?_cons, h]

theorem find?_mime_cons_neg (r : WebRTCReceiver) (rest : List WebRTCReceiver) (m' : String)
    (h : ¬ equalFold r.mime m' = true) :
    (r :: rest).find? (fun x => equalFold x.mime m')
      = rest.find? (fun x => equalFold x.mime m') := by
  simp [List.find?_cons, h]

theorem addUpTrackTo_find?_wiring (rs : List WebRTCReceiver) (m : String) (ut : String × Nat)
    (m' : String) :
    ((addUpTrackTo rs m ut).find? (fun r => equalFold r.mime m')).map wiringView
      = (rs.find? (fun r => equalFold r.mime m')).map wiringView := by
  induction rs with
  | nil => rfl
  | cons r rest ih =>
    unfold addUpTrackTo
    by_cases h : equalFold r.mime m = true
    · rw [if_pos h]
      by_cases h2 : equalFold r.mime m' = true
      · rw [find?_mime_cons_pos _ _ _ (by simpa using h2), find?_mime_cons_pos _ _ _ h2]
        rfl
      · rw [find?_mime_cons_neg _ _ _ (by simpa using h2), find?_mime_cons_neg _ _ _ h2]
    · rw [if_neg h]
      by_cases h2 : equalFold r.mime m' = true
      · rw [find?_mime_cons_pos _ _ _ h2, find?_mime_cons_pos _ _ _ h2]
      · rw [find?_mime_cons_neg _ _ _ h2, find?_mime_cons_neg _ _ _ h2]
        exact ih

theorem addUpTrackTo_fresh (rs : List WebRTCReceiver) (m : String) (ut : String × Nat)
    (x : WebRTCReceiver) (h : ∀ a ∈ rs, ¬ equalFold a.mime m = true)
    (hx : equalFold x.mime m = true) :
    addUpTrackTo (rs ++ [x]) m ut = rs ++ [{ x with upTracks := x.upTracks ++ [ut] }] := by
  induction rs with
  | nil => simp [addUpTrackTo, hx]
  | cons r rest ih =>
    have hr : ¬ equalFold r.mime m = true := h r (by simp)
    simp only [List.cons_append]
    unfold addUpTrackTo
    rw [if_neg hr]
    rw [ih (fun a ha => h a (by simp [ha]))]

theorem setMaxLayerForMime_find?_self (rs : List WebRTCReceiver) (m : String) (l : Int)
    (r : WebRTCReceiver) (h : rs.find? (fun x => equalFold x.mime m) = some r) :
    (setMaxLayerForMime rs m l).find? (fun x => equalFold x.mime m)
      = some { r with maxExpectedSpatialLayer := some l } := by
  induction rs with
  | nil => simp [List.find?] at h
  | cons a rest ih =>
    unfold setMaxLayerForMime
    by_cases ha : equalFold a.mime m = true
    · rw [find?_mime_cons_pos _ _ _ ha] at h
      cases h
      rw [if_pos ha, find?_mime_cons_pos _ _ _ (by simpa using ha)]
    · rw [find?_mime_cons_neg _ _ _ ha] at h
      rw [if_neg ha, find?_mime_cons_neg _ _ _ ha]
      exact ih h

theorem setMaxLayerForMime_find?_other (rs : List WebRTCReceiver) (m : String) (l : Int)
    (m' : String) (hne : strToLower m ≠ strToLower m') :
    (setMaxLayerForMime rs m l).find? (fun x => equalFold x.mime m')
      = rs.find? (fun x => equalFold x.mime m') := by
  induction rs with
  | nil => rfl
  | cons a rest ih =>
    unfold setMaxLayerForMime
    by_cases ha : equalFold a.mime m = true
    · have ha' : ¬ equalFold a.mime m' = true := by
        intro hc
        exact hne ((equalFold_eq_true_iff.mp ha).symm.trans (equalFold_eq_true_iff.mp hc))
      rw [if_pos ha, find?_mime_cons_neg _ _ _ (by simpa using ha'),
        find?_mime_cons_neg _ _ _ ha']
    · rw [if_neg ha]
      by_cases ha2 : equalFold a.mime m' = true
      · rw [find?_mime_cons_pos _ _ _ ha2, find?_mime_cons_pos _ _ _ ha2]
      · rw [find?_mime_cons_neg _ _ _ ha2, find?_mime_cons_neg _ _ _ ha2]
        exact ih

theorem setMaxLayerForMime_map_mime (rs : List WebRTCReceiver) (m : String) (l : Int) :
    (setMaxLayerForMime rs m l).map (fun r => r.mime) = rs.map (fun r => r.mime) := by
  induction rs with
  | nil => rfl
  | cons r rest ih =>
    unfold setMaxLayerForMime
    split <;> simp [ih]

/-! ### `createCodecReceiver` field lemmas -/

theorem capturePotentialCodecs_erase (t : MediaTrack) (neg : List String) :
    erasePotentialCodecs (capturePotentialCodecs t neg) = erasePotentialCodecs t := by
  unfold capturePotentialCodecs erasePotentialCodecs
  split
  · split <;> rfl
  · rfl

theorem createCodecReceiver_receivers (t : MediaTrack) (mime : String)
    (neg : List String) (mid : String) (b : Buffer) (p : Nat) :
    (createCodecReceiver t mime neg mid b p).mtr.receivers
      = t.mtr.receivers ++ [mkWebRTCReceiver mime p] := by
  unfold createCodecReceiver
  rw [bindSimTracksForMid_receivers]
  show (capturePotentialCodecs t neg).mtr.receivers ++ [mkWebRTCReceiver mime p]
    = t.mtr.receivers ++ [mkWebRTCReceiver mime p]
  exact congrArg (fun l => l ++ [mkWebRTCReceiver mime p])
    (congrArg (fun s => s.mtr.receivers) (capturePotentialCodecs_erase t neg))

theorem createCodecReceiver_isSimulcast (t : MediaTrack) (mime : String)
    (neg : List String) (mid : String) (b : Buffer) (p : Nat) :
    (createCodecReceiver t mime neg mid b p).mtr.isSimulcast = t.mtr.isSimulcast := by
  unfold createCodecReceiver
  rw [bindSimTracksForMid_isSimulcast]
  show (capturePotentialCodecs t neg).mtr.isSimulcast = t.mtr.isSimulcast
  exact congrArg (fun s => s.mtr.isSimulcast) (capturePotentialCodecs_erase t neg)

theorem createCodecReceiver_numUpTracks (t : MediaTrack) (mime : String)
    (neg : List String) (mid : String) (b : Buffer) (p : Nat) :
    (createCodecReceiver t mime neg mid b p).numUpTracks = t.numUpTracks := by
  unfold createCodecReceiver
  rw [bindSimTracksForMid_numUpTracks]
  show (capturePotentialCodecs t neg).numUpTracks = t.numUpTracks
  exact congrArg (fun s => s.numUpTracks) (capturePotentialCodecs_erase t neg)

theorem createCodecReceiver_dynacast (t : MediaTrack) (mime : String)
    (neg : List String) (mid : String) (b : Buffer) (p : Nat) :
    (createCodecReceiver t mime neg mid b p).dynacast
      = t.dynacast.map (fun d => d.addCodec mime) := by
  unfold createCodecReceiver
  rw [bindSimTracksForMid_dynacast]
  show (capturePotentialCodecs t neg).dynacast.map (fun d => d.addCodec mime)
    = t.dynacast.map (fun d => d.addCodec mime)
  exact congrArg (Option.map (fun d => d.addCodec mime))
    (congrArg (fun s => s.dynacast) (capturePotentialCodecs_erase t neg))

theorem createCodecReceiver_isMuted (t : MediaTrack) (mime : String)
    (neg : List String) (mid : String) (b : Buffer) (p : Nat) :
    (createCodecReceiver t mime neg mid b p).mtr.isMuted = t.mtr.isMuted := by
  unfold createCodecReceiver
  rw [bindSimTracksForMid_isMuted]
  show (capturePotentialCodecs t neg).mtr.isMuted = t.mtr.isMuted
  exact congrArg (fun s => s.mtr.isMuted) (capturePotentialCodecs_erase t neg)

theorem createCodecReceiver_layer_mono (t : MediaTrack) (mime : String)
    (neg : List String) (mid : String) (b : Buffer) (p : Nat)
    (mi ri : String) (v : Nat) (h : t.mtr.layerSsrc mi ri = some v) :
    (createCodecReceiver t mime neg mid b p).mtr.layerSsrc mi ri = some v := by
  unfold createCodecReceiver
  apply bindSimTracksForMid_layer_mono
  show ({ capturePotentialCodecs t neg with
    mtr := { (capturePotentialCodecs t neg).mtr with
      receivers := (capturePotentialCodecs t neg).mtr.receivers ++ [mkWebRTCReceiver mime p] },
    buffer := some b } : MediaTrack).mtr.layerSsrc mi ri = some v
  have hl : (capturePotentialCodecs t neg).mtr.layerSsrcs = t.mtr.layerSsrcs :=
    congrArg (fun s => s.mtr.layerSsrcs) (capturePotentialCodecs_erase t neg)
  unfold MediaTrackReceiverState.layerSsrc at h ⊢
  simpa [hl] using h

/-! ### `latchSimulcast` / `bindLayerIfSimulcast` / `addReceiverTail` lemmas -/

theorem latchSimulcast_isSimulcast_iff (t : MediaTrack) (rid : String) :
    ((latchSimulcast t rid).mtr.isSimulcast = true
      ↔ (t.mtr.isSimulcast = true ∨ t.numUpTracks > 1 ∨ rid ≠ "")) := by
  unfold latchSimulcast
  by_cases hc : t.numUpTracks > 1 ∨ rid ≠ ""
  · rw [if_pos hc]
    exact ⟨fun _ => Or.inr hc, fun _ => rfl⟩
  · rw [if_neg hc]
    constructor
    · exact fun h => Or.inl h
    · intro h
      rcases h with h | h
      · exact h
      · exact absurd h hc

theorem latchSimulcast_mono (t : MediaTrack) (rid : String)
    (h : t.mtr.isSimulcast = true) : (latchSimulcast t rid).mtr.isSimulcast = true :=
  (latchSimulcast_isSimulcast_iff t rid).mpr (Or.inl h)

theorem latchSimulcast_receivers (t : MediaTrack) (rid : String) :
    (latchSimulcast t rid).mtr.receivers = t.mtr.receivers := by
  unfold latchSimulcast
  split <;> rfl

theorem latchSimulcast_numUpTracks (t : MediaTrack) (rid : String) :
    (latchSimulcast t rid).numUpTracks = t.numUpTracks := by
  unfold latchSimulcast
  split <;> rfl

theorem latchSimulcast_dynacast (t : MediaTrack) (rid : String) :
    (latchSimulcast t rid).dynacast = t.dynacast := by
  unfold latchSimulcast
  split <;> rfl

theorem latchSimulcast_isMuted (t : MediaTrack) (rid : String) :
    (latchSimulcast t rid).mtr.isMuted = t.mtr.isMuted := by
  unfold latchSimulcast
  split <;> rfl

theorem latchSimulcast_layerSsrcs (t : MediaTrack) (rid : String) :
    (latchSimulcast t rid).mtr.layerSsrcs = t.mtr.layerSsrcs := by
  unfold latchSimulcast
  split <;> rfl

theorem bindLayerIfSimulcast_erase (t : MediaTrack) (mime : String) (rt : RemoteTrack) :
    eraseLayerSsrcs (bindLayerIfSimulcast t mime rt) = eraseLayerSsrcs t := by
  unfold bindLayerIfSimulcast
  split
  · exact eraseLayer_setLayerSsrc t mime rt.rid rt.ssrc
  · rfl

theorem bindLayerIfSimulcast_receivers (t : MediaTrack) (mime : String) (rt : RemoteTrack) :
    (bindLayerIfSimulcast t mime rt).mtr.receivers = t.mtr.receivers :=
  congrArg (fun s => s.mtr.receivers) (bindLayerIfSimulcast_erase t mime rt)

theorem bindLayerIfSimulcast_isSimulcast (t : MediaTrack) (mime : String) (rt : RemoteTrack) :
    (bindLayerIfSimulcast t mime rt).mtr.isSimulcast = t.mtr.isSimulcast :=
  congrArg (fun s => s.mtr.isSimulcast) (bindLayerIfSimulcast_erase t mime rt)

theorem bindLayerIfSimulcast_numUpTracks (t : MediaTrack) (mime : String) (rt : RemoteTrack) :
    (bindLayerIfSimulcast t mime rt).numUpTracks = t.numUpTracks :=
  congrArg (fun s => s.numUpTracks) (bindLayerIfSimulcast_erase t mime rt)

theorem bindLayerIfSimulcast_dynacast (t : MediaTrack) (mime : String) (rt : RemoteTrack) :
    (bindLayerIfSimulcast t mime rt).dynacast = t.dynacast :=
  congrArg (fun s => s.dynacast) (bindLayerIfSimulcast_erase t mime rt)

theorem bindLayerIfSimulcast_isMuted (t : MediaTrack) (mime : String) (rt : RemoteTrack) :
    (bindLayerIfSimulcast t mime rt).mtr.isMuted = t.mtr.isMuted :=
  congrArg (fun s => s.mtr.isMuted) (bindLayerIfSimulcast_erase t mime rt)

theorem addReceiverTail_newCodec (t : MediaTrack) (mime : String) (rt : RemoteTrack)
    (nc : Bool) : (addReceiverTail t mime rt nc).newCodec = nc := rfl

theorem addReceiverTail_logs (t : MediaTrack) (mime : String) (rt : RemoteTrack)
    (nc : Bool) : (addReceiverTail t mime rt nc).logs = [] := rfl

theorem addReceiverTail_map_mime (t : MediaTrack) (mime : String) (rt : RemoteTrack)
    (nc : Bool) :
    (addReceiverTail t mime rt nc).track.mtr.receivers.map (fun r => r.mime)
      = t.mtr.receivers.map (fun r => r.mime) := by
  unfold addReceiverTail
  rw [bindLayerIfSimulcast_receivers, latchSimulcast_receivers]
  exact addUpTrackTo_map_mime t.mtr.receivers mime (rt.rid, rt.ssrc)

theorem addReceiverTail_find?_wiring (t : MediaTrack) (mime : String) (rt : RemoteTrack)
    (nc : Bool) (m' : String) :
    (((addReceiverTail t mime rt nc).track.mtr.receiver m').map wiringView)
      = ((t.mtr.receiver m').map wiringView) := by
  unfold addReceiverTail MediaTrackReceiverState.receiver
  rw [bindLayerIfSimulcast_receivers, latchSimulcast_receivers]
  exact addUpTrackTo_find?_wiring t.mtr.receivers mime (rt.rid, rt.ssrc) m'

theorem addReceiverTail_numUpTracks (t : MediaTrack) (mime : String) (rt : RemoteTrack)
    (nc : Bool) : (addReceiverTail t mime rt nc).track.numUpTracks = t.numUpTracks + 1 := by
  unfold addReceiverTail
  rw [bindLayerIfSimulcast_numUpTracks, latchSimulcast_numUpTracks]

theorem addReceiverTail_dynacast (t : MediaTrack) (mime : String) (rt : RemoteTrack)
    (nc : Bool) : (addReceiverTail t mime rt nc).track.dynacast = t.dynacast := by
  unfold addReceiverTail
  rw [bindLayerIfSimulcast_dynacast, latchSimulcast_dynacast]

theorem addReceiverTail_isMuted (t : MediaTrack) (mime : String) (rt : RemoteTrack)
    (nc : Bool) : (addReceiverTail t mime rt nc).track.mtr.isMuted = t.mtr.isMuted := by
  unfold addReceiverTail
  rw [bindLayerIfSimulcast_isMuted, latchSimulcast_isMuted]

theorem addReceiverTail_isSimulcast_iff (t : MediaTrack) (mime : String) (rt : RemoteTrack)
    (nc : Bool) :
    ((addReceiverTail t mime rt nc).track.mtr.isSimulcast = true
      ↔ (t.mtr.isSimulcast = true ∨ t.numUpTracks + 1 > 1 ∨ rt.rid ≠ "")) := by
  unfold addReceiverTail
  rw [bindLayerIfSimulcast_isSimulcast]
  exact latchSimulcast_isSimulcast_iff _ rt.rid

/-! ### `addReceiver` branch lemmas -/

theorem addReceiver_existing_eq (t : MediaTrack) (rt : RemoteTrack) (neg : List String)
    (mid : String) (b : Buffer) (r : RtcpReader) (wr : WebRTCReceiver)
    (h : t.mtr.receiver (strToLower rt.mimeType) = some wr) :
    t.addReceiver rt neg mid (some b) (some r)
      = addReceiverTail t (strToLower rt.mimeType) rt false := by
  simp only [MediaTrack.addReceiver, h]

theorem addReceiver_prifail_eq (t : MediaTrack) (rt : RemoteTrack) (neg : List String)
    (mid : String) (b : Buffer) (r : RtcpReader)
    (h1 : t.mtr.receiver (strToLower rt.mimeType) = none)
    (h2 : resolveCodecPriority (strToLower rt.mimeType) t.mtr.trackInfo.codecs = none) :
    t.addReceiver rt neg mid (some b) (some r)
      = { track := t, newCodec := false,
          logs := [LogEvent.warnNoCodecPriority (strToLower rt.mimeType)] } := by
  simp only [MediaTrack.addReceiver, h1, h2]

theorem addReceiver_new_eq (t : MediaTrack) (rt : RemoteTrack) (neg : List String)
    (mid : String) (b : Buffer) (r : RtcpReader) (p : Nat)
    (h1 : t.mtr.receiver (strToLower rt.mimeType) = none)
    (h2 : resolveCodecPriority (strToLower rt.mimeType) t.mtr.trackInfo.codecs = some p) :
    t.addReceiver rt neg mid (some b) (some r)
      = addReceiverTail (createCodecReceiver t (strToLower rt.mimeType) neg mid b p)
          (strToLower rt.mimeType) rt true := by
  simp only [MediaTrack.addReceiver, h1, h2]

theorem addReceiver_nobuffer_eq (t : MediaTrack) (rt : RemoteTrack) (neg : List String)
    (mid : String) (bo : Option Buffer) (ro : Option RtcpReader)
    (h : bo = none ∨ ro = none) :
    t.addReceiver rt neg mid bo ro
      = { track := t, newCodec := false, logs := [LogEvent.errorNoBufferPair] } := by
  rcases h with h | h
  · subst h
    cases ro <;> rfl
  · subst h
    cases bo <;> rfl

theorem receiver_none_forall (m : MediaTrackReceiverState) (mime : String)
    (h : m.receiver mime = none) :
    ∀ a ∈ m.receivers, ¬ equalFold a.mime mime = true := by
  unfold MediaTrackReceiverState.receiver at h
  intro a ha
  simpa using List.find?_eq_none.mp h a ha

theorem createCodecReceiver_receiver_preserve (t : MediaTrack) (mime : String)
    (neg : List String) (mid : String) (b : Buffer) (p : Nat) (m' : String)
    (e : WebRTCReceiver) (h : t.mtr.receiver m' = some e) :
    (createCodecReceiver t mime neg mid b p).mtr.receiver m' = some e := by
  unfold MediaTrackReceiverState.receiver at h ⊢
  rw [createCodecReceiver_receivers]
  exact find?_append_some _ h

theorem addReceiver_new_receiver_entry (t : MediaTrack) (rt : RemoteTrack)
    (neg : List String) (mid : String) (b : Buffer) (r : RtcpReader) (p : Nat)
    (h1 : t.mtr.receiver (strToLower rt.mimeType) = none)
    (h2 : resolveCodecPriority (strToLower rt.mimeType) t.mtr.trackInfo.codecs = some p) :
    (t.addReceiver rt neg mid (some b) (some r)).track.mtr.receiver (strToLower rt.mimeType)
      = some { mkWebRTCReceiver (strToLower rt.mimeType) p with upTracks := [(rt.rid, rt.ssrc)] } := by
  rw [addReceiver_new_eq t rt neg mid b r p h1 h2]
  unfold addReceiverTail MediaTrackReceiverState.receiver
  rw [bindLayerIfSimulcast_receivers, latchSimulcast_receivers]
  show (addUpTrackTo (createCodecReceiver t (strToLower rt.mimeType) neg mid b p).mtr.receivers
      (strToLower rt.mimeType) (rt.rid, rt.ssrc)).find?
      (fun x => equalFold x.mime (strToLower rt.mimeType)) = _
  rw [createCodecReceiver_receivers]
  rw [addUpTrackTo_fresh t.mtr.receivers (strToLower rt.mimeType) (rt.rid, rt.ssrc)
    (mkWebRTCReceiver (strToLower rt.mimeType) p)
    (receiver_none_forall t.mtr (strToLower rt.mimeType) h1)
    (equalFold_refl (strToLower rt.mimeType))]
  rw [find?_append_of_none _ ?hnone]
  case hnone =>
    unfold MediaTrackReceiverState.receiver at h1
    exact h1
  simp [List.find?, mkWebRTCReceiver, equalFold_refl]

theorem addReceiver_preserves_wiring (t : MediaTrack) (rt : RemoteTrack) (neg : List String)
    (mid : String) (bo : Option Buffer) (ro : Option RtcpReader) (m' : String)
    (e : WebRTCReceiver) (h : t.mtr.receiver m' = some e) :
    ∃ e2, (t.addReceiver rt neg mid bo ro).track.mtr.receiver m' = some e2
      ∧ wiringView e2 = wiringView e := by
  match bo, ro with
  | none, _ =>
    rw [addReceiver_nobuffer_eq t rt neg mid none _ (Or.inl rfl)]
    exact ⟨e, h, rfl⟩
  | some b, none =>
    rw [addReceiver_nobuffer_eq t rt neg mid (some b) none (Or.inr rfl)]
    exact ⟨e, h, rfl⟩
  | some b, some r =>
    cases hlook : t.mtr.receiver (strToLower rt.mimeType) with
    | some wr =>
      rw [addReceiver_existing_eq t rt neg mid b r wr hlook]
      have hw := addReceiverTail_find?_wiring t (strToLower rt.mimeType) rt false m'
      rw [show t.mtr.receiver m' = MediaTrackReceiverState.receiver t.mtr m' from rfl] at h
      rw [h] at hw
      obtain ⟨e2, he2, hve⟩ := Option.map_eq_some'.mp hw
      exact ⟨e2, he2, hve⟩
    | none =>
      cases hp : resolveCodecPriority (strToLower rt.mimeType) t.mtr.trackInfo.codecs with
      | none =>
        rw [addReceiver_prifail_eq t rt neg mid b r hlook hp]
        exact ⟨e, h, rfl⟩
      | some p =>
        rw [addReceiver_new_eq t rt neg mid b r p hlook hp]
        have hpre := createCodecReceiver_receiver_preserve t (strToLower rt.mimeType) neg mid b p m' e h
        have hw := addReceiverTail_find?_wiring
          (createCodecReceiver t (strToLower rt.mimeType) neg mid b p) (strToLower rt.mimeType) rt true m'
        rw [hpre] at hw
        obtain ⟨e2, he2, hve⟩ := Option.map_eq_some'.mp hw
        exact ⟨e2, he2, hve⟩

/-! ### Per-operation preservation lemmas -/

theorem DynacastManager.close_isClosed (d : DynacastManager) : d.close.isClosed = true := by
  unfold DynacastManager.close
  split
  · simp_all
  · rfl

theorem DynacastManager.close_idem (d : DynacastManager) : d.close.close = d.close := by
  show (if d.close.isClosed = true then d.close
    else { d.close with isClosed := true, closeCount := d.close.closeCount + 1 }) = d.close
  rw [if_pos (DynacastManager.close_isClosed d)]

theorem DynacastManager.addCodec_isClosed (d : DynacastManager) (m : String) :
    (d.addCodec m).isClosed = d.isClosed := by
  unfold DynacastManager.addCodec
  split <;> rfl

theorem DynacastManager.addCodec_closeCount (d : DynacastManager) (m : String) :
    (d.addCodec m).closeCount = d.closeCount := by
  unfold DynacastManager.addCodec
  split <;> rfl

theorem subscribedMaxQualityHandler_isSimulcast (q2l : Nat → Int) (t : MediaTrack)
    (s : List String) (mq : List SubscribedCodecQuality) :
    (MediaTrack.subscribedMaxQualityHandler q2l t s mq).1.mtr.isSimulcast
      = t.mtr.isSimulcast := rfl

theorem subscribedMaxQualityHandler_dynacast (q2l : Nat → Int) (t : MediaTrack)
    (s : List String) (mq : List SubscribedCodecQuality) :
    (MediaTrack.subscribedMaxQualityHandler q2l t s mq).1.dynacast = t.dynacast := rfl

theorem forceUpdate_isSimulcast (q2l : Nat → Int) (t : MediaTrack) :
    (t.forceUpdate q2l).1.mtr.isSimulcast = t.mtr.isSimulcast := by
  unfold MediaTrack.forceUpdate
  cases hd : t.dynacast with
  | none => rfl
  | some d =>
    by_cases hc : d.isClosed = true
    · simp [hc]
    · simp only [hc, Bool.false_eq_true, if_false]
      exact subscribedMaxQualityHandler_isSimulcast q2l t [] d.curMaxQualities

theorem forceUpdate_dynacast (q2l : Nat → Int) (t : MediaTrack) :
    (t.forceUpdate q2l).1.dynacast = t.dynacast := by
  unfold MediaTrack.forceUpdate
  cases hd : t.dynacast with
  | none => exact hd
  | some d =>
    by_cases hc : d.isClosed = true
    · simp only [hc, if_true]
      exact hd
    · simp only [hc, Bool.false_eq_true, if_false]
      rw [subscribedMaxQualityHandler_dynacast]
      exact hd

theorem setMuted_isSimulcast (q2l : Nat → Int) (t : MediaTrack) (muted : Bool) :
    (MediaTrack.setMuted q2l t muted).1.mtr.isSimulcast = t.mtr.isSimulcast := by
  unfold MediaTrack.setMuted
  split
  · exact forceUpdate_isSimulcast q2l t
  · rfl

theorem setMuted_dynacast (q2l : Nat → Int) (t : MediaTrack) (muted : Bool) :
    (MediaTrack.setMuted q2l t muted).1.dynacast = t.dynacast := by
  unfold MediaTrack.setMuted
  split
  · exact forceUpdate_dynacast q2l t
  · rfl

theorem close_isSimulcast (t : MediaTrack) (w : Bool) :
    (t.close w).mtr.isSimulcast = t.mtr.isSimulcast := rfl

theorem close_dynacast (t : MediaTrack) (w : Bool) :
    (t.close w).dynacast = t.dynacast.map DynacastManager.close := rfl

theorem receiverCloseHandler_isSimulcast (t : MediaTrack) (mime : String) :
    (t.receiverCloseHandler mime).mtr.isSimulcast = t.mtr.isSimulcast := by
  simp only [MediaTrack.receiverCloseHandler, MediaTrackReceiverState.tryClose]
  generalize (t.mtr.setClosing.clearReceiver mime false).receivers.isEmpty = c
  cases c <;> rfl

theorem receiverCloseHandler_dynacast (t : MediaTrack) (mime : String) :
    (t.receiverCloseHandler mime).dynacast = t.dynacast
      ∨ (t.receiverCloseHandler mime).dynacast = t.dynacast.map DynacastManager.close := by
  simp only [MediaTrack.receiverCloseHandler, MediaTrackReceiverState.tryClose]
  generalize (t.mtr.setClosing.clearReceiver mime false).receivers.isEmpty = c
  cases c
  · left
    rfl
  · right
    rfl

theorem restartTrack_dynacast (t : MediaTrack) : t.restartTrack.dynacast = t.dynacast := by
  unfold MediaTrack.restartTrack
  cases t.dynacast <;> rfl

theorem rtcpOnPacket_mtr (t : MediaTrack) (d : Except String (List RtcpPacket)) :
    (t.rtcpOnPacket d).1.mtr = t.mtr := by
  unfold MediaTrack.rtcpOnPacket
  cases d <;> rfl

theorem rtcpOnPacket_dynacast (t : MediaTrack) (d : Except String (List RtcpPacket)) :
    (t.rtcpOnPacket d).1.dynacast = t.dynacast := by
  unfold MediaTrack.rtcpOnPacket
  cases d <;> rfl

theorem addReceiver_isSimulcast_mono (t : MediaTrack) (rt : RemoteTrack) (neg : List String)
    (mid : String) (bo : Option Buffer) (ro : Option RtcpReader)
    (h : t.mtr.isSimulcast = true) :
    (t.addReceiver rt neg mid bo ro).track.mtr.isSimulcast = true := by
  match bo, ro with
  | none, _ =>
    rw [addReceiver_nobuffer_eq t rt neg mid none _ (Or.inl rfl)]
    exact h
  | some b, none =>
    rw [addReceiver_nobuffer_eq t rt neg mid (some b) none (Or.inr rfl)]
    exact h
  | some b, some r =>
    cases hlook : t.mtr.receiver (strToLower rt.mimeType) with
    | some wr =>
      rw [addReceiver_existing_eq t rt neg mid b r wr hlook]
      exact (addReceiverTail_isSimulcast_iff t (strToLower rt.mimeType) rt false).mpr (Or.inl h)
    | none =>
      cases hp : resolveCodecPriority (strToLower rt.mimeType) t.mtr.trackInfo.codecs with
      | none =>
        rw [addReceiver_prifail_eq t rt neg mid b r hlook hp]
        exact h
      | some p =>
        rw [addReceiver_new_eq t rt neg mid b r p hlook hp]
        refine (addReceiverTail_isSimulcast_iff _ (strToLower rt.mimeType) rt true).mpr (Or.inl ?_)
        rw [createCodecReceiver_isSimulcast]
        exact h

theorem addReceiver_dynacast_shape (t : MediaTrack) (rt : RemoteTrack) (neg : List String)
    (mid : String) (bo : Option Buffer) (ro : Option RtcpReader) :
    (t.addReceiver rt neg mid bo ro).track.dynacast = t.dynacast
      ∨ (t.addReceiver rt neg mid bo ro).track.dynacast
          = t.dynacast.map (fun d => d.addCodec (strToLower rt.mimeType)) := by
  match bo, ro with
  | none, _ =>
    rw [addReceiver_nobuffer_eq t rt neg mid none _ (Or.inl rfl)]
    exact Or.inl rfl
  | some b, none =>
    rw [addReceiver_nobuffer_eq t rt neg mid (some b) none (Or.inr rfl)]
    exact Or.inl rfl
  | some b, some r =>
    cases hlook : t.mtr.receiver (strToLower rt.mimeType) with
    | some wr =>
      rw [addReceiver_existing_eq t rt neg mid b r wr hlook]
      exact Or.inl (addReceiverTail_dynacast t (strToLower rt.mimeType) rt false)
    | none =>
      cases hp : resolveCodecPriority (strToLower rt.mimeType) t.mtr.trackInfo.codecs with
      | none =>
        rw [addReceiver_prifail_eq t rt neg mid b r hlook hp]
        exact Or.inl rfl
      | some p =>
        rw [addReceiver_new_eq t rt neg mid b r p hlook hp]
        right
        rw [addReceiverTail_dynacast, createCodecReceiver_dynacast]

/-- The simulcast flag is never reset by any modelled operation. -/
theorem applyOp_isSimulcast_mono (t : MediaTrack) (op : TrackOp)
    (h : t.mtr.isSimulcast = true) : (t.applyOp op).mtr.isSimulcast = true := by
  cases op with
  | addReceiver rt neg mid bo ro => exact addReceiver_isSimulcast_mono t rt neg mid bo ro h
  | closeTrack w => exact h
  | receiverClosed mime =>
    show (t.receiverCloseHandler mime).mtr.isSimulcast = true
    rw [receiverCloseHandler_isSimulcast]
    exact h
  | setMuted q2l m =>
    show (MediaTrack.setMuted q2l t m).1.mtr.isSimulcast = true
    rw [setMuted_isSimulcast]
    exact h
  | maxQualityChange q2l s mq =>
    show (MediaTrack.subscribedMaxQualityHandler q2l t s mq).1.mtr.isSimulcast = true
    rw [subscribedMaxQualityHandler_isSimulcast]
    exact h
  | restart =>
    show t.restartTrack.mtr.isSimulcast = true
    unfold MediaTrack.restartTrack
    exact h
  | rtcpPacket d =>
    show (t.rtcpOnPacket d).1.mtr.isSimulcast = true
    rw [congrArg (fun m => m.isSimulcast) (rtcpOnPacket_mtr t d)]
    exact h

theorem dynInv_of_dynacast_eq (t t' : MediaTrack) (hd : t'.dynacast = t.dynacast)
    (h : t.dynInv) : t'.dynInv := by
  unfold MediaTrack.dynInv at h ⊢
  rw [hd]
  exact h

theorem dynInv_of_map_close (t t' : MediaTrack)
    (hd : t'.dynacast = t.dynacast.map DynacastManager.close) (h : t.dynInv) : t'.dynInv := by
  unfold MediaTrack.dynInv at h ⊢
  rw [hd]
  cases hdd : t.dynacast with
  | none => trivial
  | some d =>
    rw [hdd] at h
    have h2 : d.closeCount = (if d.isClosed = true then 1 else 0) := h
    show (DynacastManager.close d).closeCount
      = (if (DynacastManager.close d).isClosed = true then 1 else 0)
    unfold DynacastManager.close
    by_cases hc : d.isClosed = true
    · rw [if_pos hc]
      exact h2
    · rw [if_neg hc]
      simp only [hc, Bool.false_eq_true, if_false] at h2
      simp [h2]

theorem dynInv_of_map_addCodec (t t' : MediaTrack) (mime : String)
    (hd : t'.dynacast = t.dynacast.map (fun d => d.addCodec mime)) (h : t.dynInv) : t'.dynInv := by
  unfold MediaTrack.dynInv at h ⊢
  rw [hd]
  cases hdd : t.dynacast with
  | none => trivial
  | some d =>
    rw [hdd] at h
    have h2 : d.closeCount = (if d.isClosed = true then 1 else 0) := h
    show (d.addCodec mime).closeCount = (if (d.addCodec mime).isClosed = true then 1 else 0)
    rw [DynacastManager.addCodec_closeCount, DynacastManager.addCodec_isClosed]
    exact h2

/-- The Dynacast close-count invariant is preserved by every modelled
operation. -/
theorem applyOp_dynInv (t : MediaTrack) (op : TrackOp) (h : t.dynInv) :
    (t.applyOp op).dynInv := by
  cases op with
  | addReceiver rt neg mid bo ro =>
    rcases addReceiver_dynacast_shape t rt neg mid bo ro with hd | hd
    · exact dynInv_of_dynacast_eq t _ hd h
    · exact dynInv_of_map_addCodec t _ _ hd h
  | closeTrack w => exact dynInv_of_map_close t _ (close_dynacast t w) h
  | receiverClosed mime =>
    rcases receiverCloseHandler_dynacast t mime with hd | hd
    · exact dynInv_of_dynacast_eq t _ hd h
    · exact dynInv_of_map_close t _ hd h
  | setMuted q2l m => exact dynInv_of_dynacast_eq t _ (setMuted_dynacast q2l t m) h
  | maxQualityChange q2l s mq => exact dynInv_of_dynacast_eq t _ rfl h
  | restart => exact dynInv_of_dynacast_eq t _ (restartTrack_dynacast t) h
  | rtcpPacket d => exact dynInv_of_dynacast_eq t _ (rtcpOnPacket_dynacast t d) h

theorem runOps_dynInv (t : MediaTrack) (ops : List TrackOp) (h : t.dynInv) :
    (runOps t ops).dynInv :=
  foldl_invariant MediaTrack.dynInv MediaTrack.applyOp applyOp_dynInv ops t h

theorem dynInv_count_le_one (t : MediaTrack) (h : t.dynInv) : t.dynCloseCount ≤ 1 := by
  unfold MediaTrack.dynInv at h
  unfold MediaTrack.dynCloseCount
  cases hdd : t.dynacast with
  | none => exact Nat.zero_le 1
  | some d =>
    rw [hdd] at h
    have h2 : d.closeCount = (if d.isClosed = true then 1 else 0) := h
    show d.closeCount ≤ 1
    rw [h2]
    split <;> simp

theorem close_track_idem (t : MediaTrack) (w w2 : Bool) :
    (t.close w).close w2 = t.close w := by
  unfold MediaTrack.close MediaTrackReceiverState.setClosing
    MediaTrackReceiverState.clearAllReceivers MediaTrackReceiverState.closeReceiver
  cases t.dynacast with
  | none => rfl
  | some d => simp [DynacastManager.close_idem]

theorem runOps_isSimulcast_mono (t : MediaTrack) (ops : List TrackOp)
    (h : t.mtr.isSimulcast = true) : (runOps t ops).mtr.isSimulcast = true :=
  foldl_invariant (fun s => s.mtr.isSimulcast = true) MediaTrack.applyOp
    applyOp_isSimulcast_mono ops t h

/-! ### Existing-receiver attachment and uniqueness -/

theorem addUpTrackTo_find?_self (rs : List WebRTCReceiver) (m : String) (ut : String × Nat)
    (r : WebRTCReceiver) (h : rs.find? (fun x => equalFold x.mime m) = some r) :
    (addUpTrackTo rs m ut).find? (fun x => equalFold x.mime m)
      = some { r with upTracks := r.upTracks ++ [ut] } := by
  induction rs with
  | nil => simp [List.find?] at h
  | cons a rest ih =>
    unfold addUpTrackTo
    by_cases ha : equalFold a.mime m = true
    · rw [find?_mime_cons_pos _ _ _ ha] at h
      cases h
      rw [if_pos ha, find?_mime_cons_pos _ _ _ (by simpa using ha)]
    · rw [find?_mime_cons_neg _ _ _ ha] at h
      rw [if_neg ha, find?_mime_cons_neg _ _ _ ha]
      exact ih h

theorem addReceiverTail_receiver_self (t : MediaTrack) (mime : String) (rt : RemoteTrack)
    (nc : Bool) (r : WebRTCReceiver) (h : t.mtr.receiver mime = some r) :
    (addReceiverTail t mime rt nc).track.mtr.receiver mime
      = some { r with upTracks := r.upTracks ++ [(rt.rid, rt.ssrc)] } := by
  unfold addReceiverTail MediaTrackReceiverState.receiver
  rw [bindLayerIfSimulcast_receivers, latchSimulcast_receivers]
  unfold MediaTrackReceiverState.receiver at h
  exact addUpTrackTo_find?_self t.mtr.receivers mime (rt.rid, rt.ssrc) r h

theorem mimeKeys_congr {rs rs2 : List WebRTCReceiver}
    (h : rs2.map (fun r => r.mime) = rs.map (fun r => r.mime)) : mimeKeys rs2 = mimeKeys rs := by
  unfold mimeKeys
  have h2 := congrArg (List.map strToLower) h
  simpa [List.map_map, Function.comp] using h2

theorem receiversUnique_congr {rs rs2 : List WebRTCReceiver}
    (h : rs2.map (fun r => r.mime) = rs.map (fun r => r.mime))
    (hu : receiversUniquePerMime rs) : receiversUniquePerMime rs2 := by
  unfold receiversUniquePerMime
  rw [mimeKeys_congr h]
  exact hu

theorem receiversUnique_append (rs : List WebRTCReceiver) (x : WebRTCReceiver)
    (hu : receiversUniquePerMime rs)
    (hx : ∀ a ∈ rs, ¬ equalFold a.mime x.mime = true) :
    receiversUniquePerMime (rs ++ [x]) := by
  unfold receiversUniquePerMime mimeKeys at hu ⊢
  rw [List.map_append, List.pairwise_append]
  refine ⟨hu, List.pairwise_singleton _ _, ?_⟩
  intro a ha b hb
  simp only [List.map_cons, List.map_nil, List.mem_singleton] at hb
  subst hb
  simp only [List.mem_map] at ha
  obtain ⟨ra, hra, hkey⟩ := ha
  subst hkey
  intro hcontra
  exact hx ra hra (equalFold_eq_true_iff.mpr hcontra)

/-! ### Layer binding in the tail -/

theorem latchSimulcast_layerSsrc (t : MediaTrack) (rid mi ri : String) :
    (latchSimulcast t rid).mtr.layerSsrc mi ri = t.mtr.layerSsrc mi ri := by
  unfold MediaTrackReceiverState.layerSsrc
  rw [latchSimulcast_layerSsrcs]

theorem bindLayerIfSimulcast_bound (u : MediaTrack) (mime : String) (rt : RemoteTrack)
    (h : u.mtr.isSimulcast = true) :
    ∃ v, (bindLayerIfSimulcast u mime rt).mtr.layerSsrc mime rt.rid = some v := by
  unfold bindLayerIfSimulcast
  rw [if_pos h]
  exact ⟨_, layerSsrc_setLayerSsrc_self u.mtr mime rt.rid rt.ssrc⟩

theorem bindLayerIfSimulcast_layer_mono (u : MediaTrack) (mime : String) (rt : RemoteTrack)
    (mi ri : String) (v : Nat) (h : u.mtr.layerSsrc mi ri = some v) :
    (bindLayerIfSimulcast u mime rt).mtr.layerSsrc mi ri = some v := by
  unfold bindLayerIfSimulcast
  split
  · exact layerSsrc_setLayerSsrc_mono u.mtr mi ri v mime rt.rid rt.ssrc h
  · exact h

theorem addReceiverTail_layer_mono (t : MediaTrack) (mime : String) (rt : RemoteTrack)
    (nc : Bool) (mi ri : String) (v : Nat) (h : t.mtr.layerSsrc mi ri = some v) :
    (addReceiverTail t mime rt nc).track.mtr.layerSsrc mi ri = some v := by
  unfold addReceiverTail
  apply bindLayerIfSimulcast_layer_mono
  rw [latchSimulcast_layerSsrc]
  exact h

theorem addReceiverTail_layer_bound (t : MediaTrack) (mime : String) (rt : RemoteTrack)
    (nc : Bool)
    (h : t.mtr.isSimulcast = true ∨ t.numUpTracks + 1 > 1 ∨ rt.rid ≠ "") :
    ∃ v, (addReceiverTail t mime rt nc).track.mtr.layerSsrc mime rt.rid = some v := by
  unfold addReceiverTail
  apply bindLayerIfSimulcast_bound
  exact (latchSimulcast_isSimulcast_iff _ rt.rid).mpr h

theorem layerSsrc_congr {m1 m2 : MediaTrackReceiverState} (h : m1.layerSsrcs = m2.layerSsrcs)
    (mi ri : String) : m1.layerSsrc mi ri = m2.layerSsrc mi ri := by
  unfold MediaTrackReceiverState.layerSsrc
  rw [h]

theorem latchBind_layer_self (u : MediaTrack) (mime : String) (rt : RemoteTrack)
    (h : u.mtr.isSimulcast = true ∨ u.numUpTracks > 1 ∨ rt.rid ≠ "") :
    (bindLayerIfSimulcast (latchSimulcast u rt.rid) mime rt).mtr.layerSsrc mime rt.rid
      = some ((u.mtr.layerSsrc mime rt.rid).getD rt.ssrc) := by
  unfold bindLayerIfSimulcast
  rw [if_pos ((latchSimulcast_isSimulcast_iff u rt.rid).mpr h)]
  rw [layerSsrc_setLayerSsrc_self]
  rw [latchSimulcast_layerSsrc]

theorem latchBind_layerSsrcs_of_not (u : MediaTrack) (mime : String) (rt : RemoteTrack)
    (h : ¬ (u.mtr.isSimulcast = true ∨ u.numUpTracks > 1 ∨ rt.rid ≠ "")) :
    (bindLayerIfSimulcast (latchSimulcast u rt.rid) mime rt).mtr.layerSsrcs
      = u.mtr.layerSsrcs := by
  unfold bindLayerIfSimulcast
  rw [if_neg ?hc]
  case hc =>
    intro hcontra
    exact h ((latchSimulcast_isSimulcast_iff u rt.rid).mp hcontra)
  exact latchSimulcast_layerSsrcs u rt.rid

/-- Under the latch condition, the tail binds (mime, RID) to the incoming
SSRC when the pair was unbound, and keeps the existing SSRC otherwise
(first-binding-wins). -/
theorem addReceiverTail_layer_self (t : MediaTrack) (mime : String) (rt : RemoteTrack)
    (nc : Bool)
    (h : t.mtr.isSimulcast = true ∨ t.numUpTracks + 1 > 1 ∨ rt.rid ≠ "") :
    (addReceiverTail t mime rt nc).track.mtr.layerSsrc mime rt.rid
      = some ((t.mtr.layerSsrc mime rt.rid).getD rt.ssrc) := by
  unfold addReceiverTail
  exact latchBind_layer_self _ mime rt h

/-- When the latch condition fails, the tail leaves the layer map untouched. -/
theorem addReceiverTail_layerSsrcs_of_not_simulcast (t : MediaTrack) (mime : String)
    (rt : RemoteTrack) (nc : Bool)
    (h : ¬ (t.mtr.isSimulcast = true ∨ t.numUpTracks + 1 > 1 ∨ rt.rid ≠ "")) :
    (addReceiverTail t mime rt nc).track.mtr.layerSsrcs = t.mtr.layerSsrcs := by
  unfold addReceiverTail
  exact latchBind_layerSsrcs_of_not _ mime rt h

theorem bindSimTracksForMid_of_empty (u : MediaTrack) (mime mid : String)
    (h : u.simTracks = []) : bindSimTracksForMid u mime mid = u := by
  unfold bindSimTracksForMid
  rw [h]
  rfl

theorem createCodecReceiver_layerSsrcs_of_no_simtracks (t : MediaTrack) (mime : String)
    (neg : List String) (mid : String) (b : Buffer) (p : Nat) (h : t.simTracks = []) :
    (createCodecReceiver t mime neg mid b p).mtr.layerSsrcs = t.mtr.layerSsrcs := by
  unfold createCodecReceiver
  rw [bindSimTracksForMid_of_empty]
  · show (capturePotentialCodecs t neg).mtr.layerSsrcs = t.mtr.layerSsrcs
    exact congrArg (fun s => s.mtr.layerSsrcs) (capturePotentialCodecs_erase t neg)
  · show (capturePotentialCodecs t neg).simTracks = []
    exact (congrArg (fun s => s.simTracks) (capturePotentialCodecs_erase t neg)).trans h

/-! ### Quality-handler fold lemmas -/

theorem foldSetMax_find?_untouched (q2l : Nat → Int) (l : List SubscribedCodecQuality)
    (rs : List WebRTCReceiver) (m : String)
    (h : ∀ q ∈ l, strToLower q.codecMime ≠ strToLower m) :
    (l.foldl (fun rs2 q => setMaxLayerForMime rs2 q.codecMime (q2l q.quality)) rs).find?
      (fun x => equalFold x.mime m) = rs.find? (fun x => equalFold x.mime m) := by
  induction l generalizing rs with
  | nil => rfl
  | cons q rest ih =>
    rw [List.foldl_cons]
    rw [ih _ (fun q2 hq2 => h q2 (by simp [hq2]))]
    exact setMaxLayerForMime_find?_other rs q.codecMime (q2l q.quality) m (h q (by simp))

theorem foldSetMax_updates (q2l : Nat → Int) (l : List SubscribedCodecQuality)
    (hnd : l.Pairwise (fun a b => strToLower a.codecMime ≠ strToLower b.codecMime)) :
    ∀ (rs : List WebRTCReceiver), ∀ q ∈ l, ∀ r,
      rs.find? (fun x => equalFold x.mime q.codecMime) = some r →
      (l.foldl (fun rs2 q2 => setMaxLayerForMime rs2 q2.codecMime (q2l q2.quality)) rs).find?
          (fun x => equalFold x.mime q.codecMime)
        = some { r with maxExpectedSpatialLayer := some (q2l q.quality) } := by
  induction l with
  | nil =>
    intro rs q hq
    simp at hq
  | cons x rest ih =>
    intro rs q hq r hr
    rw [List.foldl_cons]
    obtain ⟨hhead, htail⟩ := List.pairwise_cons.mp hnd
    rcases List.mem_cons.mp hq with hqx | hqrest
    · subst hqx
      rw [foldSetMax_find?_untouched q2l rest _ q.codecMime
        (fun q2 hq2 => (hhead q2 hq2).symm)]
      exact setMaxLayerForMime_find?_self rs q.codecMime (q2l q.quality) r hr
    · refine ih htail _ q hqrest r ?_
      rw [setMaxLayerForMime_find?_other rs x.codecMime (q2l x.quality) q.codecMime
        (hhead q hqrest)]
      exact hr

/-! ### Claim theorems -/

/-- C1: the close/teardown body executes at most once no matter how many
times and by which path close is triggered: over any operation sequence the
Dynacast teardown body runs at most once, a second explicit `Close` is a
no-op (the state is unchanged), and an explicit `Close` on a not-yet-closed
controller runs the teardown body exactly once. -/
theorem close_teardown_at_most_once (t : MediaTrack) (ops : List TrackOp) (w w2 : Bool)
    (d : DynacastManager) (hinv : t.dynInv) :
    ((runOps t ops).dynCloseCount ≤ 1) ∧
    ((t.close w).close w2 = t.close w) ∧
    (t.dynacast = some d → d.isClosed = false → (t.close w).dynCloseCount = 1) := by
  refine ⟨dynInv_count_le_one _ (runOps_dynInv t ops hinv), close_track_idem t w w2, ?_⟩
  intro hd hdc
  unfold MediaTrack.dynInv at hinv
  rw [hd] at hinv
  have hcount : d.closeCount = (if d.isClosed = true then 1 else 0) := hinv
  rw [hdc] at hcount
  simp only [Bool.false_eq_true, if_false] at hcount
  unfold MediaTrack.dynCloseCount
  rw [close_dynacast, hd]
  show (DynacastManager.close d).closeCount = 1
  unfold DynacastManager.close
  rw [if_neg (by simp [hdc])]
  simp [hcount]

/-- C2: for calls sharing one codec mime (case-insensitive), only the first
creates a Codec Receiver and returns true; a call that finds the mime
registered returns false, creates nothing, and only attaches the up-track to
the existing receiver; and the at-most-one-receiver-per-mime invariant is
preserved by every call. -/
theorem attach_at_most_one_receiver_per_mime (t : MediaTrack) (rt : RemoteTrack)
    (neg : List String) (mid : String) (b : Buffer) (r : RtcpReader)
    (wr : WebRTCReceiver) (p : Nat) :
    (t.mtr.receiver (strToLower rt.mimeType) = some wr →
      (t.addReceiver rt neg mid (some b) (some r)).newCodec = false ∧
      (t.addReceiver rt neg mid (some b) (some r)).track.mtr.receivers.map (fun x => x.mime)
        = t.mtr.receivers.map (fun x => x.mime) ∧
      (t.addReceiver rt neg mid (some b) (some r)).track.mtr.receiver (strToLower rt.mimeType)
        = some { wr with upTracks := wr.upTracks ++ [(rt.rid, rt.ssrc)] }) ∧
    (t.mtr.receiver (strToLower rt.mimeType) = none →
      resolveCodecPriority (strToLower rt.mimeType) t.mtr.trackInfo.codecs = some p →
      (t.addReceiver rt neg mid (some b) (some r)).newCodec = true ∧
      (t.addReceiver rt neg mid (some b) (some r)).track.mtr.receivers.map (fun x => x.mime)
        = t.mtr.receivers.map (fun x => x.mime) ++ [strToLower rt.mimeType]) ∧
    (receiversUniquePerMime t.mtr.receivers →
      receiversUniquePerMime (t.addReceiver rt neg mid (some b) (some r)).track.mtr.receivers) := by
  refine ⟨?_, ?_, ?_⟩
  · intro hlook
    rw [addReceiver_existing_eq t rt neg mid b r wr hlook]
    exact ⟨addReceiverTail_newCodec _ _ _ _, addReceiverTail_map_mime _ _ _ _,
      addReceiverTail_receiver_self t (strToLower rt.mimeType) rt false wr hlook⟩
  · intro hlook hp
    rw [addReceiver_new_eq t rt neg mid b r p hlook hp]
    refine ⟨addReceiverTail_newCodec _ _ _ _, ?_⟩
    rw [addReceiverTail_map_mime, createCodecReceiver_receivers]
    simp [mkWebRTCReceiver]
  · intro hu
    cases hlook : t.mtr.receiver (strToLower rt.mimeType) with
    | some wr2 =>
      rw [addReceiver_existing_eq t rt neg mid b r wr2 hlook]
      exact receiversUnique_congr (addReceiverTail_map_mime _ _ _ _) hu
    | none =>
      cases hp : resolveCodecPriority (strToLower rt.mimeType) t.mtr.trackInfo.codecs with
      | none =>
        rw [addReceiver_prifail_eq t rt neg mid b r hlook hp]
        exact hu
      | some p2 =>
        rw [addReceiver_new_eq t rt neg mid b r p2 hlook hp]
        have hmap : (addReceiverTail (createCodecReceiver t (strToLower rt.mimeType) neg mid b p2)
              (strToLower rt.mimeType) rt true).track.mtr.receivers.map (fun x => x.mime)
            = (t.mtr.receivers ++ [mkWebRTCReceiver (strToLower rt.mimeType) p2]).map
                (fun x => x.mime) := by
          rw [addReceiverTail_map_mime, createCodecReceiver_receivers]
        exact receiversUnique_congr hmap
          (receiversUnique_append t.mtr.receivers _ hu
            (receiver_none_forall t.mtr (strToLower rt.mimeType) hlook))

/-- C3: when no Codec Receiver exists for the incoming mime, the resolved
priority is the index of the first case-insensitively matching declared
codec; with no match, an empty declared list (audio) or a single declared
codec with empty mime (pre-negotiation client) resolve to priority 0, every
other non-matching shape fails; on failure a warning is logged, no receiver
is created, the state is unchanged and the call returns false. -/
theorem codec_priority_resolution_behavior (t : MediaTrack) (rt : RemoteTrack)
    (neg : List String) (mid : String) (b : Buffer) (r : RtcpReader) (idx : Nat)
    (c : SimulcastCodecInfo) :
    (t.mtr.receiver (strToLower rt.mimeType) = none →
      findCodecIndex (strToLower rt.mimeType) t.mtr.trackInfo.codecs = some idx →
      resolveCodecPriority (strToLower rt.mimeType) t.mtr.trackInfo.codecs = some idx ∧
      (t.addReceiver rt neg mid (some b) (some r)).newCodec = true ∧
      (t.addReceiver rt neg mid (some b) (some r)).track.mtr.receiver (strToLower rt.mimeType)
        = some { mkWebRTCReceiver (strToLower rt.mimeType) idx
            with upTracks := [(rt.rid, rt.ssrc)] }) ∧
    (t.mtr.trackInfo.codecs = [] →
      resolveCodecPriority (strToLower rt.mimeType) t.mtr.trackInfo.codecs = some 0) ∧
    (t.mtr.trackInfo.codecs = [c] →
      findCodecIndex (strToLower rt.mimeType) t.mtr.trackInfo.codecs = none →
      c.mimeType = "" →
      resolveCodecPriority (strToLower rt.mimeType) t.mtr.trackInfo.codecs = some 0) ∧
    (resolveCodecPriority (strToLower rt.mimeType) t.mtr.trackInfo.codecs = none ↔
      (findCodecIndex (strToLower rt.mimeType) t.mtr.trackInfo.codecs = none ∧
        t.mtr.trackInfo.codecs ≠ [] ∧
        ∀ c2, t.mtr.trackInfo.codecs = [c2] → c2.mimeType ≠ "")) ∧
    (t.mtr.receiver (strToLower rt.mimeType) = none →
      resolveCodecPriority (strToLower rt.mimeType) t.mtr.trackInfo.codecs = none →
      t.addReceiver rt neg mid (some b) (some r)
        = { track := t, newCodec := false,
            logs := [LogEvent.warnNoCodecPriority (strToLower rt.mimeType)] }) := by
  refine ⟨?_, ?_, ?_, ?_, ?_⟩
  · intro hlook hfind
    have hres : resolveCodecPriority (strToLower rt.mimeType) t.mtr.trackInfo.codecs = some idx := by
      unfold resolveCodecPriority
      rw [hfind]
    refine ⟨hres, ?_, addReceiver_new_receiver_entry t rt neg mid b r idx hlook hres⟩
    rw [addReceiver_new_eq t rt neg mid b r idx hlook hres]
    exact addReceiverTail_newCodec _ _ _ _
  · intro hnil
    unfold resolveCodecPriority
    rw [hnil]
    rfl
  · intro hone hfind hempty
    unfold resolveCodecPriority
    rw [hfind, hone]
    show (if c.mimeType = "" then some 0 else none) = some 0
    rw [if_pos hempty]
  · unfold resolveCodecPriority
    cases hfind : findCodecIndex (strToLower rt.mimeType) t.mtr.trackInfo.codecs with
    | some i =>
      simp only []
      constructor
      · intro hcontra
        cases hcontra
      · intro ⟨hn, _, _⟩
        cases hn
    | none =>
      cases hcs : t.mtr.trackInfo.codecs with
      | nil =>
        simp
      | cons c1 rest =>
        cases rest with
        | nil =>
          by_cases hm : c1.mimeType = ""
          · simp [hm]
          · simp [hm]
        | cons c2 rest2 =>
          simp
  · exact addReceiver_prifail_eq t rt neg mid b r

/-- C4: the simulcast flag is a monotonic latch.  A successful `AddReceiver`
call sets it exactly when the incremented up-track counter exceeds 1 or the
encoding carries a non-empty RID; once true, no modelled operation of the
Track ever resets it. -/
theorem simulcast_latch_monotone (t : MediaTrack) (rt : RemoteTrack) (neg : List String)
    (mid : String) (b : Buffer) (r : RtcpReader) (ops : List TrackOp)
    (hpass : t.mtr.receiver (strToLower rt.mimeType) ≠ none
      ∨ resolveCodecPriority (strToLower rt.mimeType) t.mtr.trackInfo.codecs ≠ none) :
    ((t.addReceiver rt neg mid (some b) (some r)).track.mtr.isSimulcast = true
      ↔ (t.mtr.isSimulcast = true ∨ t.numUpTracks + 1 > 1 ∨ rt.rid ≠ "")) ∧
    (t.mtr.isSimulcast = true → (runOps t ops).mtr.isSimulcast = true) := by
  constructor
  · cases hlook : t.mtr.receiver (strToLower rt.mimeType) with
    | some wr =>
      rw [addReceiver_existing_eq t rt neg mid b r wr hlook]
      exact addReceiverTail_isSimulcast_iff t (strToLower rt.mimeType) rt false
    | none =>
      cases hp : resolveCodecPriority (strToLower rt.mimeType) t.mtr.trackInfo.codecs with
      | none =>
        rcases hpass with hc | hc
        · exact absurd hlook hc
        · exact absurd hp hc
      | some p =>
        rw [addReceiver_new_eq t rt neg mid b r p hlook hp]
        rw [addReceiverTail_isSimulcast_iff, createCodecReceiver_isSimulcast,
          createCodecReceiver_numUpTracks]
  · intro h
    exact runOps_isSimulcast_mono t ops h

/-- C5: while the Track is muted a subscribed-quality change never invokes
the externally registered handler; and `SetMuted(false)` on a video track
forces exactly one immediate recomputation of current aggregate demand,
emitted through the registered handler before the unmuted state is applied. -/
theorem mute_suppression_unmute_forced_update (t : MediaTrack) (q2l : Nat → Int)
    (subQ : List String) (maxQ : List SubscribedCodecQuality) (d : DynacastManager)
    (hmut : t.mtr.isMuted = true) (hdyn : t.dynacast = some d)
    (hopen : d.isClosed = false) :
    ((MediaTrack.subscribedMaxQualityHandler q2l t subQ maxQ).2 = []) ∧
    ((MediaTrack.setMuted q2l t false).2
      = Emit.forcedRecompute d.curMaxQualities :: ([] ++ [Emit.muteApplied false])) ∧
    (countForcedEmits (MediaTrack.setMuted q2l t false).2 = 1) ∧
    ((MediaTrack.setMuted q2l t false).1.mtr.isMuted = false) := by
  have hA : ∀ s mq, (MediaTrack.subscribedMaxQualityHandler q2l t s mq).2 = [] := by
    intro s mq
    unfold MediaTrack.subscribedMaxQualityHandler
    simp [hmut]
  have hFU : (t.forceUpdate q2l).2 = [Emit.forcedRecompute d.curMaxQualities] := by
    unfold MediaTrack.forceUpdate
    rw [hdyn]
    simp only [hopen, Bool.false_eq_true, if_false]
    rw [hA]
  have hB : (MediaTrack.setMuted q2l t false).2
      = [Emit.forcedRecompute d.curMaxQualities, Emit.muteApplied false] := by
    unfold MediaTrack.setMuted
    rw [if_pos (by simp [hdyn])]
    show (MediaTrack.forceUpdate q2l t).2 ++ [Emit.muteApplied false] = _
    rw [hFU]
    rfl
  refine ⟨hA subQ maxQ, ?_, ?_, ?_⟩
  · rw [hB]
    rfl
  · rw [hB]
    rfl
  · unfold MediaTrack.setMuted
    rfl

/-- C6: when the buffer factory cannot supply both the packet buffer and the
RTCP reader, `AddReceiver` logs the failure and returns false with the track
state completely unchanged. -/
theorem buffer_pair_failure_leaves_state_unchanged (t : MediaTrack) (rt : RemoteTrack)
    (neg : List String) (mid : String) (bo : Option Buffer) (ro : Option RtcpReader) :
    (t.addReceiver rt neg mid none ro
      = { track := t, newCodec := false, logs := [LogEvent.errorNoBufferPair] }) ∧
    (t.addReceiver rt neg mid bo none
      = { track := t, newCodec := false, logs := [LogEvent.errorNoBufferPair] }) :=
  ⟨addReceiver_nobuffer_eq t rt neg mid none ro (Or.inl rfl),
   addReceiver_nobuffer_eq t rt neg mid bo none (Or.inr rfl)⟩

/-- C9: the RTCP feedback consumer dispatches by packet type: a sender report
updates the buffer's sender-report timing state with its RTP/NTP timestamps,
a source description is accepted and discarded, an unparseable payload is
logged and dropped, and no dispatch ever touches track state outside the
buffer. -/
theorem rtcp_dispatch_behavior (t : MediaTrack) (e : String) (rtpTime ntpTime : Nat)
    (b : Buffer) (d : Except String (List RtcpPacket)) :
    (t.rtcpOnPacket (Except.error e) = (t, [LogEvent.errorRtcpUnmarshal])) ∧
    (processRtcpOnBuffer b [RtcpPacket.senderReport rtpTime ntpTime]
      = { b with senderReportData := some (rtpTime, ntpTime) }) ∧
    (processRtcpOnBuffer b [RtcpPacket.sourceDescription] = b) ∧
    ((t.rtcpOnPacket d).1.mtr = t.mtr ∧ (t.rtcpOnPacket d).1.dynacast = t.dynacast
      ∧ (t.rtcpOnPacket d).1.numUpTracks = t.numUpTracks) := by
  refine ⟨rfl, rfl, rfl, rtcpOnPacket_mtr t d, rtcpOnPacket_dynacast t d, ?_⟩
  unfold MediaTrack.rtcpOnPacket
  cases d <;> rfl

/-- C10: on an effective max-quality change, every receiver present for a
reported mime has its maximum expected spatial layer set to the layer derived
from that codec's new maximum quality — unconditionally, for any mute state
(the receiver-ceiling loop runs outside the mute guard). -/
theorem receiver_ceiling_update_unconditional (t : MediaTrack) (q2l : Nat → Int)
    (subQ : List String) (maxQ : List SubscribedCodecQuality)
    (hnd : maxQ.Pairwise (fun a b => strToLower a.codecMime ≠ strToLower b.codecMime)) :
    ∀ q ∈ maxQ, ∀ r, t.mtr.receiver q.codecMime = some r →
      (MediaTrack.subscribedMaxQualityHandler q2l t subQ maxQ).1.mtr.receiver q.codecMime
        = some { r with maxExpectedSpatialLayer := some (q2l q.quality) } := by
  intro q hq r hr
  exact foldSetMax_updates q2l maxQ hnd t.mtr.receivers q hq r hr

/-- C7 (counterexample): an `AddReceiver` call that passes both the
buffer-pair and the priority checks (it returns "new codec") but is not
simulcast — first layer, empty RID, no configured SimTracks — binds nothing
into the layer map, refuting "every passing call binds the physical layer". -/
theorem layer_binding_counterexample :
    resC7.newCodec = true ∧ resC7.track.mtr.layerSsrcs = [] := by
  constructor
  · decide
  · decide

/-- C7 (amended): on a track with no SimTracks configuration, an
`AddReceiver` call that passes the buffer-pair and priority checks behaves on
the layer map as follows.  When the track is simulcast after the call's latch
update (it was already simulcast, the incremented counter exceeds 1, or the
RID is non-empty), the (codec mime, RID) pair resolves to the incoming
encoding's SSRC if it was previously unbound, and keeps its already-known
SSRC otherwise (first-binding-wins: a later call reporting the same RID with
a different SSRC leaves the map unchanged); no existing binding is ever
regressed by any passing call; and a passing call for which the track is not
simulcast binds nothing — the layer map is left exactly unchanged. -/
theorem layer_binding_when_simulcast (t : MediaTrack) (rt : RemoteTrack) (neg : List String)
    (mid : String) (b : Buffer) (r : RtcpReader) (mi ri : String) (v : Nat)
    (hpass : t.mtr.receiver (strToLower rt.mimeType) ≠ none
      ∨ resolveCodecPriority (strToLower rt.mimeType) t.mtr.trackInfo.codecs ≠ none)
    (hnosim : t.simTracks = []) :
    ((t.mtr.isSimulcast = true ∨ t.numUpTracks + 1 > 1 ∨ rt.rid ≠ "") →
      (t.addReceiver rt neg mid (some b) (some r)).track.mtr.layerSsrc
          (strToLower rt.mimeType) rt.rid
        = some ((t.mtr.layerSsrc (strToLower rt.mimeType) rt.rid).getD rt.ssrc)) ∧
    (t.mtr.layerSsrc mi ri = some v →
      (t.addReceiver rt neg mid (some b) (some r)).track.mtr.layerSsrc mi ri = some v) ∧
    (¬ (t.mtr.isSimulcast = true ∨ t.numUpTracks + 1 > 1 ∨ rt.rid ≠ "") →
      (t.addReceiver rt neg mid (some b) (some r)).track.mtr.layerSsrcs
        = t.mtr.layerSsrcs) := by
  cases hlook : t.mtr.receiver (strToLower rt.mimeType) with
  | some wr =>
    rw [addReceiver_existing_eq t rt neg mid b r wr hlook]
    exact ⟨fun hsim => addReceiverTail_layer_self t _ rt false hsim,
      fun h => addReceiverTail_layer_mono t _ rt false mi ri v h,
      fun hns => addReceiverTail_layerSsrcs_of_not_simulcast t _ rt false hns⟩
  | none =>
    cases hp : resolveCodecPriority (strToLower rt.mimeType) t.mtr.trackInfo.codecs with
    | none =>
      rcases hpass with hc | hc
      · exact absurd hlook hc
      · exact absurd hp hc
    | some p =>
      rw [addReceiver_new_eq t rt neg mid b r p hlook hp]
      have hccl : ∀ mi2 ri2,
          (createCodecReceiver t (strToLower rt.mimeType) neg mid b p).mtr.layerSsrc mi2 ri2
            = t.mtr.layerSsrc mi2 ri2 :=
        fun mi2 ri2 => layerSsrc_congr
          (createCodecReceiver_layerSsrcs_of_no_simtracks t _ neg mid b p hnosim) mi2 ri2
      refine ⟨?_, ?_, ?_⟩
      · intro hsim
        have hsim2 :
            (createCodecReceiver t (strToLower rt.mimeType) neg mid b p).mtr.isSimulcast = true
            ∨ (createCodecReceiver t (strToLower rt.mimeType) neg mid b p).numUpTracks + 1 > 1
            ∨ rt.rid ≠ "" := by
          rw [createCodecReceiver_isSimulcast, createCodecReceiver_numUpTracks]
          exact hsim
        rw [addReceiverTail_layer_self _ _ rt true hsim2]
        rw [hccl]
      · intro h
        exact addReceiverTail_layer_mono _ _ rt true mi ri v
          (createCodecReceiver_layer_mono t _ neg mid b p mi ri v h)
      · intro hns
        have hns2 : ¬
            ((createCodecReceiver t (strToLower rt.mimeType) neg mid b p).mtr.isSimulcast = true
            ∨ (createCodecReceiver t (strToLower rt.mimeType) neg mid b p).numUpTracks + 1 > 1
            ∨ rt.rid ≠ "") := by
          rw [createCodecReceiver_isSimulcast, createCodecReceiver_numUpTracks]
          exact hns
        rw [addReceiverTail_layerSsrcs_of_not_simulcast _ _ rt true hns2]
        exact createCodecReceiver_layerSsrcs_of_no_simtracks t _ neg mid b p hnosim

/-- C8 (counterexample): with declared codecs `[vp8, h264]`, the first Codec
Receiver created (h264, resolved priority 1) is NOT wired to the stats and
max-layer callbacks, while the later vp8 receiver (priority 0) is — refuting
"the first receiver created is the one wired". -/
theorem primary_wiring_counterexample :
    (resC8a.newCodec = true ∧
      resC8a.track.mtr.receivers.map
          (fun x => (x.mime, x.priority, x.statsWired, x.maxLayerWired))
        = [("video/h264", 1, false, false)]) ∧
    (resC8b.track.mtr.receivers.map (fun x => (x.mime, x.statsWired, x.maxLayerWired))
      = [("video/h264", false, false), ("video/vp8", true, true)]) := by
  refine ⟨⟨?_, ?_⟩, ?_⟩ <;> decide

/-- C8 (amended): the Codec Receiver created with resolved priority 0 is the
one wired to the top-level stats and max-layer callbacks at creation;
receivers created with nonzero priority are not wired; and no later
`AddReceiver` call ever changes the wiring (or priority) of an
already-registered receiver, so arrival order is irrelevant. -/
theorem stats_wiring_iff_priority_zero (t : MediaTrack) (rt : RemoteTrack)
    (neg : List String) (mid : String) (b : Buffer) (r : RtcpReader) (p : Nat) :
    (t.mtr.receiver (strToLower rt.mimeType) = none →
      resolveCodecPriority (strToLower rt.mimeType) t.mtr.trackInfo.codecs = some p →
      ∃ e, (t.addReceiver rt neg mid (some b) (some r)).track.mtr.receiver
            (strToLower rt.mimeType) = some e
        ∧ e.statsWired = (p == 0) ∧ e.maxLayerWired = (p == 0) ∧ e.priority = p) ∧
    (∀ (bo : Option Buffer) (ro : Option RtcpReader) (m2 : String) (e : WebRTCReceiver),
      t.mtr.receiver m2 = some e →
      ∃ e2, (t.addReceiver rt neg mid bo ro).track.mtr.receiver m2 = some e2
        ∧ e2.statsWired = e.statsWired ∧ e2.maxLayerWired = e.maxLayerWired
        ∧ e2.priority = e.priority) := by
  constructor
  · intro hlook hp
    refine ⟨{ mkWebRTCReceiver (strToLower rt.mimeType) p
        with upTracks := [(rt.rid, rt.ssrc)] },
      addReceiver_new_receiver_entry t rt neg mid b r p hlook hp, rfl, rfl, rfl⟩
  · intro bo ro m2 e he
    obtain ⟨e2, he2, hve⟩ := addReceiver_preserves_wiring t rt neg mid bo ro m2 e he
    refine ⟨e2, he2, ?_, ?_, ?_⟩
    · exact congrArg (fun x => x.2.2.1) hve
    · exact congrArg (fun x => x.2.2.2.1) hve
    · exact congrArg (fun x => x.2.1) hve

/-! ### Witnesses -/

theorem close_teardown_at_most_once_witness :
    t0W.dynInv ∧
    (t0W.close false).dynCloseCount = 1 ∧
    (t0W.close false).close true = t0W.close false ∧
    (runOps t0W [TrackOp.closeTrack false]).dynCloseCount ≤ 1 :=
  ⟨rfl,
   (close_teardown_at_most_once t0W [TrackOp.closeTrack false] false true {} rfl).2.2 rfl rfl,
   (close_teardown_at_most_once t0W [TrackOp.closeTrack false] false true {} rfl).2.1,
   (close_teardown_at_most_once t0W [TrackOp.closeTrack false] false true {} rfl).1⟩

theorem attach_at_most_one_receiver_per_mime_witness :
    (t1W.mtr.receiver (strToLower rtW2.mimeType) = some wr1W) ∧
    ((t1W.addReceiver rtW2 ["video/vp8"] "0" (some {}) (some {})).newCodec = false ∧
      (t1W.addReceiver rtW2 ["video/vp8"] "0" (some {}) (some {})).track.mtr.receivers.map
          (fun x => x.mime)
        = t1W.mtr.receivers.map (fun x => x.mime) ∧
      (t1W.addReceiver rtW2 ["video/vp8"] "0" (some {}) (some {})).track.mtr.receiver
          (strToLower rtW2.mimeType)
        = some { wr1W with upTracks := wr1W.upTracks ++ [(rtW2.rid, rtW2.ssrc)] }) :=
  ⟨by decide,
   (attach_at_most_one_receiver_per_mime t1W rtW2 ["video/vp8"] "0" {} {} wr1W 0).1 (by decide)⟩

theorem codec_priority_resolution_behavior_witness :
    (trackC8.mtr.receiver (strToLower rtAv1W.mimeType) = none ∧
     resolveCodecPriority (strToLower rtAv1W.mimeType) trackC8.mtr.trackInfo.codecs = none) ∧
    (trackC8.addReceiver rtAv1W [] "0" (some {}) (some {})
      = { track := trackC8, newCodec := false,
          logs := [LogEvent.warnNoCodecPriority (strToLower rtAv1W.mimeType)] }) :=
  ⟨⟨by decide, by decide⟩,
   (codec_priority_resolution_behavior trackC8 rtAv1W [] "0" {} {} 0
       { mimeType := "" }).2.2.2.2 (by decide) (by decide)⟩

theorem simulcast_latch_monotone_witness :
    ((t0W.mtr.receiver (strToLower rtW.mimeType) ≠ none
        ∨ resolveCodecPriority (strToLower rtW.mimeType) t0W.mtr.trackInfo.codecs ≠ none)) ∧
    (((t0W.addReceiver rtW ["video/vp8"] "0" (some {}) (some {})).track.mtr.isSimulcast = true
        ↔ (t0W.mtr.isSimulcast = true ∨ t0W.numUpTracks + 1 > 1 ∨ rtW.rid ≠ "")) ∧
      (t0W.mtr.isSimulcast = true → (runOps t0W []).mtr.isSimulcast = true)) :=
  ⟨by decide,
   simulcast_latch_monotone t0W rtW ["video/vp8"] "0" {} {} [] (by decide)⟩

theorem mute_suppression_unmute_forced_update_witness :
    (tMutW.mtr.isMuted = true ∧ tMutW.dynacast = some {}
      ∧ ({} : DynacastManager).isClosed = false) ∧
    ((MediaTrack.subscribedMaxQualityHandler q2lW tMutW [] []).2 = [] ∧
      (MediaTrack.setMuted q2lW tMutW false).2
        = Emit.forcedRecompute ({} : DynacastManager).curMaxQualities
            :: ([] ++ [Emit.muteApplied false]) ∧
      countForcedEmits (MediaTrack.setMuted q2lW tMutW false).2 = 1 ∧
      (MediaTrack.setMuted q2lW tMutW false).1.mtr.isMuted = false) :=
  ⟨⟨by decide, by decide, rfl⟩,
   mute_suppression_unmute_forced_update tMutW q2lW [] [] {}
     (by decide) (by decide) rfl⟩

theorem layer_binding_when_simulcast_witness :
    ((t0W.mtr.receiver (strToLower rtW.mimeType) ≠ none
        ∨ resolveCodecPriority (strToLower rtW.mimeType) t0W.mtr.trackInfo.codecs ≠ none) ∧
      t0W.simTracks = [] ∧
      (t0W.mtr.isSimulcast = true ∨ t0W.numUpTracks + 1 > 1 ∨ rtW.rid ≠ "") ∧
      (t0W.mtr.layerSsrc (strToLower rtW.mimeType) rtW.rid).getD rtW.ssrc = 1001 ∧
      (t1W.mtr.layerSsrc (strToLower rt3W.mimeType) rt3W.rid).getD rt3W.ssrc = 1001 ∧
      ¬ (trackC7.mtr.isSimulcast = true ∨ trackC7.numUpTracks + 1 > 1 ∨ rtC7.rid ≠ "")) ∧
    ((t0W.addReceiver rtW ["video/vp8"] "0" (some {}) (some {})).track.mtr.layerSsrc
        (strToLower rtW.mimeType) rtW.rid
      = some ((t0W.mtr.layerSsrc (strToLower rtW.mimeType) rtW.rid).getD rtW.ssrc)) ∧
    ((t1W.addReceiver rt3W ["video/vp8"] "0" (some {}) (some {})).track.mtr.layerSsrc
        (strToLower rt3W.mimeType) rt3W.rid
      = some ((t1W.mtr.layerSsrc (strToLower rt3W.mimeType) rt3W.rid).getD rt3W.ssrc)) ∧
    ((trackC7.addReceiver rtC7 ["video/vp8"] "0" (some {}) (some {})).track.mtr.layerSsrcs
      = trackC7.mtr.layerSsrcs) :=
  ⟨⟨by decide, by decide, by decide, by decide, by decide, by decide⟩,
   (layer_binding_when_simulcast t0W rtW ["video/vp8"] "0" {} {} "a" "b" 7
     (by decide) (by decide)).1 (by decide),
   (layer_binding_when_simulcast t1W rt3W ["video/vp8"] "0" {} {} "a" "b" 7
     (by decide) (by decide)).1 (by decide),
   (layer_binding_when_simulcast trackC7 rtC7 ["video/vp8"] "0" {} {} "a" "b" 7
     (by decide) (by decide)).2.2 (by decide)⟩

theorem stats_wiring_iff_priority_zero_witness :
    (trackC8.mtr.receiver (strToLower rtC8a.mimeType) = none ∧
      resolveCodecPriority (strToLower rtC8a.mimeType) trackC8.mtr.trackInfo.codecs = some 1) ∧
    (∃ e, (trackC8.addReceiver rtC8a [] "0" (some {}) (some {})).track.mtr.receiver
          (strToLower rtC8a.mimeType) = some e
      ∧ e.statsWired = (1 == 0) ∧ e.maxLayerWired = (1 == 0) ∧ e.priority = 1) :=
  ⟨⟨by decide, by decide⟩,
   (stats_wiring_iff_priority_zero trackC8 rtC8a [] "0" {} {} 1).1 (by decide) (by decide)⟩

theorem receiver_ceiling_update_unconditional_witness :
    (t1MutW.mtr.isMuted = true ∧ t1MutW.mtr.receiver "Video/VP8" = some wr1W) ∧
    (MediaTrack.subscribedMaxQualityHandler q2lW t1MutW []
        [{ codecMime := "Video/VP8", quality := 2 }]).1.mtr.receiver "Video/VP8"
      = some { wr1W with maxExpectedSpatialLayer := some (q2lW 2) } :=
  ⟨⟨by decide, by decide⟩,
   receiver_ceiling_update_unconditional t1MutW q2lW []
     [{ codecMime := "Video/VP8", quality := 2 }] (List.pairwise_singleton _ _)
     { codecMime := "Video/VP8", quality := 2 } (by decide) wr1W (by decide)⟩

end RtcModel
